import Mathlib

/-
Verification of the wtmux MCP tool server
(src/Resources/remote-scripts/wtmux-mcp.py) against its specification.

The Python program is shallowly embedded below.  Conventions of the
embedding:

* JSON values (the result of Python `json.loads` and the payloads the
  server manipulates) are modelled by the inductive type `Json`.
  Non-integer JSON numbers never occur in any behaviour the claims
  examine and are omitted from the model.  Object key/value lists model
  parsed Python dicts: insertion order is the list order.
* Python raising an exception is modelled with `Except PyExc`; the two
  exception classes the embedded code can actually raise
  (`AttributeError` from attribute access on a value of the wrong type,
  `TypeError` from `len`/iteration/`str.join` on unsuitable values) are
  the constructors of `PyExc`.
* The filesystem, the external `git` binary and the stdlib JSON parser
  used for *reading* files are modelled by `World`: an association list
  of file contents, a list of existing directories, an oracle for
  `subprocess.run(["git", ...])` (the spec treats git as an opaque
  external command) and an oracle for `json.loads` applied to file
  contents.  Modelled filesystem operations do not fail, so the
  `except OSError` branches of the source are vacuous here.
* Python strings are Lean `String`s, but all computations go through
  `String.data` (lists of chars) so that every definition evaluates
  inside the kernel.  `str.lower` is modelled on ASCII letters; the
  categorisation patterns it feeds are pure ASCII, and both the model
  and CPython fix ASCII chars and keep non-ASCII chars outside ASCII,
  so substring matching agrees.  Python compares strings by code
  points; `pyStrLe` implements exactly that order.
* `list.sort` / `sorted` (stable sorts) are modelled by the stable
  `List.insertionSort`; for a total transitive comparison a stable sort
  is a function of its input, so this agrees with CPython timsort.
-/

inductive Json where
  | null
  | bool (b : Bool)
  | int (n : Int)
  | str (s : String)
  | arr (xs : List Json)
  | obj (kvs : List (String × Json))

inductive PyExc where
  | attributeError
  | typeError
  deriving DecidableEq

/-- Code-point lexicographic strict order on char lists (CPython string `<`). -/
def strLtB : List Char → List Char → Bool
  | [], [] => false
  | [], _ :: _ => true
  | _ :: _, [] => false
  | a :: as, b :: bs =>
    if a.toNat < b.toNat then true
    else if b.toNat < a.toNat then false
    else strLtB as bs

/-- Code-point lexicographic `≤` on strings, as CPython compares strings. -/
def pyStrLe (s t : String) : Bool := !(strLtB t.data s.data)

/-- Stable sort by a boolean `≤`; models CPython `list.sort` / `sorted`. -/
def pySort {α : Type} (le : α → α → Bool) (l : List α) : List α :=
  List.insertionSort (fun a b => le a b = true) l

def strStarts (s p : String) : Bool := p.data.isPrefixOf s.data

def strEnds (s p : String) : Bool := p.data.isSuffixOf s.data

/-- Sublist containment on char lists (CPython `needle in haystack`). -/
def hasSublist (n : List Char) : List Char → Bool
  | [] => n.isEmpty
  | c :: t => n.isPrefixOf (c :: t) || hasSublist n t

/-- CPython `sub in s` substring containment. -/
def strContains (s sub : String) : Bool := hasSublist sub.data s.data

/-- ASCII lower-casing of one char (CPython `str.lower` restricted to ASCII). -/
def charLower (c : Char) : Char :=
  if 65 ≤ c.toNat && c.toNat ≤ 90 then Char.ofNat (c.toNat + 32) else c

def strLower (s : String) : String := String.mk (s.data.map charLower)

/-- Split a char list on newline chars; models CPython `s.split("\n")`. -/
def splitNl : List Char → List (List Char)
  | [] => [[]]
  | c :: t =>
    if c = '\n' then [] :: splitNl t
    else
      match splitNl t with
      | [] => [[c]]
      | h :: r => (c :: h) :: r

/-- The whitespace set of CPython `str.strip()`. -/
def isPySpace (c : Char) : Bool :=
  c = ' ' || c = '\t' || c = '\n' || c = '\r' || c = '\x0b' || c = '\x0c'

/-- CPython `str.strip()` on a char list. -/
def pyStrip (l : List Char) : List Char :=
  ((l.dropWhile isPySpace).reverse.dropWhile isPySpace).reverse

/-- Join strings with a separator (CPython `sep.join` on a list of str). -/
def joinSep (sep : String) : List String → String
  | [] => ""
  | [x] => x
  | x :: y :: r => x ++ sep ++ joinSep sep (y :: r)

/-- CPython truthiness of a JSON value. -/
def pyTruthy : Json → Bool
  | Json.null => false
  | Json.bool b => b
  | Json.int n => !(n == 0)
  | Json.str s => !s.data.isEmpty
  | Json.arr xs => !xs.isEmpty
  | Json.obj kvs => !kvs.isEmpty

/-- CPython `a or b` specialised to a JSON default. -/
def pyOr (a d : Json) : Json := if pyTruthy a then a else d

/-- Dict lookup with default, `d.get(k, default)`.  A missing key and an
explicit `null` value are both surfaced as `Json.null` when the default is
`Json.null`, exactly as Python conflates a missing key with `None` via
`d.get(k)`. -/
def jget (kvs : List (String × Json)) (k : String) (d : Json) : Json :=
  (kvs.lookup k).getD d

/-- CPython `j.get(k, d)`: `AttributeError` unless `j` is a dict. -/
def pyGet (j : Json) (k : String) (d : Json) : Except PyExc Json :=
  match j with
  | Json.obj kvs => Except.ok (jget kvs k d)
  | _ => Except.error PyExc.attributeError

def isNull : Json → Bool
  | Json.null => true
  | _ => false

/-- Test a JSON value for equality with a given string (CPython `j == s`). -/
def jeqStr (j : Json) (s : String) : Bool :=
  match j with
  | Json.str t => t == s
  | _ => false

/-- CPython `str(x)` for the scalar values the embedded code formats.
Containers go through `repr`; the model renders them structurally
(the embedded program only ever formats scalars in messages the claims
examine, and quoting subtleties of CPython `repr` are not modelled). -/
def pyStr : Json → String
  | Json.null => "None"
  | Json.bool true => "True"
  | Json.bool false => "False"
  | Json.int n => toString n
  | Json.str s => s
  | Json.arr _ => "[...]"
  | Json.obj _ => "\x7b...\x7d"

/-- CPython iteration over a JSON value: lists yield elements, strings
yield one-char strings, dicts yield their keys; other values raise
`TypeError` (as `enumerate` / `for` / `join` would). -/
def pyIterate : Json → Except PyExc (List Json)
  | Json.arr xs => Except.ok xs
  | Json.str s => Except.ok (s.data.map (fun c => Json.str (String.mk [c])))
  | Json.obj kvs => Except.ok (kvs.map (fun kv => Json.str kv.1))
  | _ => Except.error PyExc.typeError

/-- CPython `len`: `TypeError` on non-sized values. -/
def pyLen : Json → Except PyExc Nat
  | Json.arr xs => Except.ok xs.length
  | Json.str s => Except.ok s.data.length
  | Json.obj kvs => Except.ok kvs.length
  | _ => Except.error PyExc.typeError

def pyJoinStrs : List Json → Except PyExc (List String)
  | [] => Except.ok []
  | Json.str s :: r => (pyJoinStrs r).map (fun t => s :: t)
  | _ :: _ => Except.error PyExc.typeError

/-- CPython `sep.join(j)`: iterates `j`, requires every element to be a
string, raises `TypeError` otherwise. -/
def pyJoin (sep : String) (j : Json) : Except PyExc String :=
  (pyIterate j).bind (fun es => (pyJoinStrs es).map (joinSep sep))

/-- Lowercase hex digits of `n`, padded to 4 places (for `\uXXXX`). -/
def hex4 (n : Nat) : List Char :=
  let ds := Nat.toDigits 16 n
  List.replicate (4 - ds.length) '0' ++ ds

/-- Escape one char as CPython `json.dumps` with `ensure_ascii` does. -/
def jsonEscChar (c : Char) : List Char :=
  if c = '\x22' then ['\\', '\x22']
  else if c = '\\' then ['\\', '\\']
  else if c = '\n' then ['\\', 'n']
  else if c = '\t' then ['\\', 't']
  else if c = '\r' then ['\\', 'r']
  else if c = '\x08' then ['\\', 'b']
  else if c = '\x0c' then ['\\', 'f']
  else if c.toNat < 32 || 127 ≤ c.toNat then
    if c.toNat < 65536 then '\\' :: 'u' :: hex4 c.toNat
    else
      let v := c.toNat - 65536
      ('\\' :: 'u' :: hex4 (55296 + v / 1024)) ++ ('\\' :: 'u' :: hex4 (56320 + v % 1024))
  else [c]

def jsonQuote (s : String) : String :=
  String.mk ('\x22' :: s.data.foldr (fun c acc => jsonEscChar c ++ acc) ['\x22'])

mutual
/-- CPython `json.dumps(j, separators=(",", ":"))`: the compact form
`send_response` writes, keys in insertion order. -/
def dumpsCompact : Json → String
  | Json.null => "null"
  | Json.bool true => "true"
  | Json.bool false => "false"
  | Json.int n => toString n
  | Json.str s => jsonQuote s
  | Json.arr xs => "[" ++ dumpsCompactList xs ++ "]"
  | Json.obj kvs => "\x7b" ++ dumpsCompactKvs kvs ++ "\x7d"

def dumpsCompactList : List Json → String
  | [] => ""
  | [x] => dumpsCompact x
  | x :: y :: r => dumpsCompact x ++ "," ++ dumpsCompactList (y :: r)

def dumpsCompactKvs : List (String × Json) → String
  | [] => ""
  | [(k, v)] => jsonQuote k ++ ":" ++ dumpsCompact v
  | (k, v) :: y :: r => jsonQuote k ++ ":" ++ dumpsCompact v ++ "," ++ dumpsCompactKvs (y :: r)
end

def indentOf (level : Nat) : String := String.mk (List.replicate (2 * level) ' ')

/-- Sort object keys as `sort_keys=True` does (code-point order, stable). -/
def sortKvs (kvs : List (String × Json)) : List (String × Json) :=
  pySort (fun a b => pyStrLe a.1 b.1) kvs

mutual
/-- CPython `json.dumps(j, indent=2, sort_keys=True)` at nesting `level`.
Object members are rendered first and then sorted by key with the same
stable code-point sort `sort_keys=True` uses; since rendering one member
does not depend on its neighbours, this equals sorting first. -/
def dumpsIndentAt (level : Nat) : Json → String
  | Json.null => "null"
  | Json.bool true => "true"
  | Json.bool false => "false"
  | Json.int n => toString n
  | Json.str s => jsonQuote s
  | Json.arr [] => "[]"
  | Json.arr (x :: xs) =>
    "[\n" ++
      joinSep (",\n") ((dumpsIndentVals (level + 1) (x :: xs)).map
        (fun r => indentOf (level + 1) ++ r)) ++
      "\n" ++ indentOf level ++ "]"
  | Json.obj [] => "\x7b\x7d"
  | Json.obj (kv :: kvs) =>
    "\x7b\n" ++
      joinSep (",\n") ((pySort (fun a b => pyStrLe a.1 b.1)
          (dumpsIndentPairs (level + 1) (kv :: kvs))).map
        (fun p => indentOf (level + 1) ++ jsonQuote p.1 ++ ": " ++ p.2)) ++
      "\n" ++ indentOf level ++ "\x7d"

def dumpsIndentVals (level : Nat) : List Json → List String
  | [] => []
  | x :: r => dumpsIndentAt level x :: dumpsIndentVals level r

def dumpsIndentPairs (level : Nat) : List (String × Json) → List (String × String)
  | [] => []
  | (k, v) :: r => (k, dumpsIndentAt level v) :: dumpsIndentPairs level r
end

/-- CPython `json.dumps(j, indent=2, sort_keys=True)`. -/
def dumpsIndent (j : Json) : String := dumpsIndentAt 0 j

/-
The world: files (path contents), directories, the git oracle
(`run_git`: arguments, working directory, `None` on failure / timeout /
nonzero exit, otherwise the stripped stdout) and the `json.loads`
oracle for reading files.
-/

structure World where
  files : List (String × String)
  dirs : List String
  git : List String → String → Option String
  parse : String → Option Json

def isfile (w : World) (p : String) : Bool := (w.files.lookup p).isSome

def isdir (w : World) (p : String) : Bool := w.dirs.contains p

/-- Update (or create) a file. -/
def setFile (fs : List (String × String)) (p s : String) : List (String × String) :=
  (p, s) :: fs.filter (fun kv => !(kv.1 == p))

def removeFile (fs : List (String × String)) (p : String) : List (String × String) :=
  fs.filter (fun kv => !(kv.1 == p))

/-- POSIX `os.path.join` for one component. -/
def osJoin (a b : String) : String :=
  if strStarts b ("/") then b
  else if a.data.isEmpty then b
  else if strEnds a ("/") then a ++ b
  else a ++ "/" ++ b

/-- The name after the last `/`; `os.path.basename` on the normalised
absolute paths the handlers produce. -/
def basename (p : String) : String :=
  String.mk ((p.data.reverse.takeWhile (fun c => !(c == '/'))).reverse)

/-- A direct child name of directory `d`, if `p` lies immediately under it. -/
def childName (d p : String) : Option String :=
  let pre := (d ++ "/").data
  if pre.isPrefixOf p.data then
    let rest := p.data.drop pre.length
    if !rest.isEmpty && !(rest.contains '/') then some (String.mk rest) else none
  else none

/-- `os.listdir` on the modelled world (order: appearance in the world,
arbitrary for CPython too — every use sorts or is order-insensitive). -/
def listdir (w : World) (d : String) : List String :=
  ((w.files.map Prod.fst ++ w.dirs).filterMap (childName d)).eraseDups

/-- `os.path.relpath full repo` for the proper-descendant calls the
scanner makes (`full` always extends `repo ++ "/"`). -/
def relpathUnder (full repo : String) : String :=
  String.mk (full.data.drop (repo.length + 1))

/-- One filesystem operation of the config writer, at the granularity
the atomicity claim needs: the target file is only ever touched by the
final rename. -/
inductive FsOp where
  | mkdirs (d : String)
  | truncate (p : String)
  | append (p : String) (s : String)
  | replace (src dst : String)

def applyOp (w : World) : FsOp → World
  | FsOp.mkdirs d => { w with dirs := if w.dirs.contains d then w.dirs else w.dirs ++ [d] }
  | FsOp.truncate p => { w with files := setFile w.files p ("") }
  | FsOp.append p s =>
    { w with files := setFile w.files p (((w.files.lookup p).getD ("")) ++ s) }
  | FsOp.replace src dst =>
    match w.files.lookup src with
    | some s => { w with files := setFile (removeFile w.files src) dst s }
    | none => w

def applyOps (w : World) (ops : List FsOp) : World := ops.foldl applyOp w

/-
Embedded program: constants and helpers of wtmux-mcp.py, in source
order and with the source names.
-/

def SERVER_NAME : String := "wtmux"

def SERVER_VERSION : String := "1.0.0"

def error_result (text : String) : Json :=
  Json.obj [("content", Json.arr [Json.obj [("type", Json.str ("text")), ("text", Json.str text)]]), ("isError", Json.bool true)]

def text_result (text : String) : Json :=
  Json.obj [("content", Json.arr [Json.obj [("type", Json.str ("text")), ("text", Json.str text)]])]

/-- `SKIP_DIRS` (a Python set; modelled as the list of its members). -/
def SKIP_DIRS : List String :=
  ["node_modules", ".git", "vendor", ".build",
   "DerivedData", ".svn", ".hg", "Pods", "Carthage",
   ".swiftpm", "build", "dist", ".next", ".nuxt"]

def MAX_DEPTH : Nat := 5

def is_env_file (name : String) : Bool :=
  strStarts name (".env") || strEnds name (".env")

/-- The recursive body of `scan_env_files.scan_dir`.  The source guards
with `depth > MAX_DEPTH` and recurses with `depth + 1`; here `fuel`
stands for `MAX_DEPTH + 1 - depth`, so `fuel = 0` is exactly the
guard firing.  `acc` is the shared mutable `results` list. -/
def scanDir (w : World) (repo : String) : Nat → String → List String → List String
  | 0, _, acc => acc
  | fuel + 1, dirpath, acc =>
    (listdir w dirpath).foldl
      (fun acc name =>
        let full := osJoin dirpath name
        if isdir w full then
          if !(SKIP_DIRS.contains name) && !(strStarts name (".")) then
            scanDir w repo fuel full acc
          else acc
        else if isfile w full && is_env_file name then
          let rel := relpathUnder full repo
          if acc.contains rel then acc else acc ++ [rel]
        else acc)
      acc

/-- `scan_env_files`: recursive scan from the repo root (depth 0), then
`results.sort()`.  `os.path.abspath` on the already-absolute paths the
handlers validate is the identity. -/
def scan_env_files (w : World) (repo_path : String) : List String :=
  pySort pyStrLe (scanDir w repo_path (MAX_DEPTH + 1) repo_path [])

/-- One candidate row: manifest file, optional required lock file,
manager name, setup command. -/
def PACKAGE_MANAGER_CANDIDATES : List (String × Option String × String × String) :=
  [("package.json", some ("bun.lockb"), "bun", "bun install"),
   ("package.json", some ("bun.lock"), "bun", "bun install"),
   ("package.json", some ("pnpm-lock.yaml"), "pnpm", "pnpm install"),
   ("package.json", some ("yarn.lock"), "yarn", "yarn install"),
   ("package.json", none, "npm", "npm install"),
   ("Gemfile", none, "bundler", "bundle install"),
   ("requirements.txt", none, "pip", "pip install -r requirements.txt"),
   ("pyproject.toml", none, "pip", "pip install -e ."),
   ("composer.json", none, "composer", "composer install"),
   ("Cargo.toml", none, "cargo", "cargo build"),
   ("go.mod", none, "go", "go mod download"),
   ("Package.swift", none, "swift", "swift package resolve"),
   ("Podfile", none, "cocoapods", "pod install")]

/-- The dict `detect_package_manager` returns. -/
structure PkgManager where
  name : String
  setupCommand : String
  lockFile : Option String
  deriving DecidableEq

def pmToJson (pm : PkgManager) : Json :=
  Json.obj [("name", Json.str pm.name), ("setupCommand", Json.str pm.setupCommand),
    ("lockFile", match pm.lockFile with | some lf => Json.str lf | none => Json.null)]

/-- The `for` loop of `detect_package_manager` over a candidate table. -/
def detectFrom (w : World) (repo_path : String) :
    List (String × Option String × String × String) → Option PkgManager
  | [] => none
  | (manifest, lock_file, name, setup_cmd) :: rest =>
    if !(isfile w (osJoin repo_path manifest)) then detectFrom w repo_path rest
    else
      match lock_file with
      | some lf =>
        if !(isfile w (osJoin repo_path lf)) then detectFrom w repo_path rest
        else some ⟨name, setup_cmd, some lf⟩
      | none => some ⟨name, setup_cmd, none⟩

def detect_package_manager (w : World) (repo_path : String) : Option PkgManager :=
  detectFrom w repo_path PACKAGE_MANAGER_CANDIDATES

def JS_MANAGERS : List String := ["npm", "yarn", "pnpm", "bun"]

def DEV_NAME_PATTERNS : List String := ["dev", "start", "serve", "watch"]

def DEV_CMD_PATTERNS : List String :=
  ["vite", "next dev", "nodemon", "webpack serve", "webpack-dev-server",
   "ts-node-dev", "tsx watch", "nuxt dev", "remix dev", "astro dev"]

def BUILD_PATTERNS : List String := ["build", "compile", "bundle"]

def TEST_PATTERNS : List String := ["test", "e2e", "cypress", "vitest", "playwright"]

def LINT_PATTERNS : List String := ["lint", "format", "check", "prettier", "typecheck", "type-check"]

def CATEGORY_ORDER : List (String × Nat) :=
  [("devServer", 0), ("build", 1), ("test", 2), ("lint", 3), ("other", 4)]

/-- `CATEGORY_ORDER.get(category, 4)`. -/
def categoryRank (c : String) : Nat := (CATEGORY_ORDER.lookup c).getD 4

def categorize_script (name command : String) : String :=
  let lower_name := strLower name
  let lower_cmd := strLower command
  if DEV_NAME_PATTERNS.any (fun p => strContains lower_name p) ||
      DEV_CMD_PATTERNS.any (fun p => strContains lower_cmd p) then ("devServer")
  else if BUILD_PATTERNS.any (fun p => strContains lower_name p) then ("build")
  else if TEST_PATTERNS.any (fun p => strContains lower_name p) then ("test")
  else if LINT_PATTERNS.any (fun p => strContains lower_name p) then ("lint")
  else ("other")

/-- One element of the list `parse_scripts` builds. -/
structure ScriptEntry where
  name : String
  command : String
  runCommand : String
  category : String
  deriving DecidableEq

def scriptToJson (s : ScriptEntry) : Json :=
  Json.obj [("name", Json.str s.name), ("command", Json.str s.command),
    ("runCommand", Json.str s.runCommand), ("category", Json.str s.category)]

/-- The sort key comparison of `parse_scripts`:
`(CATEGORY_ORDER.get(category, 4), name)` tuples under Python `<=`. -/
def scriptLe (s t : ScriptEntry) : Bool :=
  decide (categoryRank s.category < categoryRank t.category) ||
    (categoryRank s.category == categoryRank t.category && pyStrLe s.name t.name)

/-- The `run_prefix` table lookup with its `"{} run"` default. -/
def runPfx (pm_name : String) : String :=
  if pm_name == "npm" then ("npm run")
  else if pm_name == "yarn" then ("yarn")
  else if pm_name == "pnpm" then ("pnpm run")
  else if pm_name == "bun" then ("bun run")
  else pm_name ++ " run"

/-- The `for name, command in scripts.items()` loop: each command must be
a string (a non-string command raises `AttributeError` inside
`categorize_script` at `command.lower()`). -/
def buildScripts (pfx : String) : List (String × Json) → Except PyExc (List ScriptEntry)
  | [] => Except.ok []
  | (name, Json.str command) :: rest =>
    (buildScripts pfx rest).map
      (fun r => ⟨name, command, pfx ++ " " ++ name, categorize_script name command⟩ :: r)
  | (_, _) :: _ => Except.error PyExc.attributeError

def parse_scripts (w : World) (repo_path : String) (package_manager : Option PkgManager) :
    Except PyExc (List ScriptEntry) :=
  match package_manager with
  | none => Except.ok []
  | some pm =>
    if !(JS_MANAGERS.contains pm.name) then Except.ok []
    else
      match w.files.lookup (osJoin repo_path ("package.json")) with
      | none => Except.ok []
      | some contents =>
        match w.parse contents with
        | none => Except.ok []
        | some pkg =>
          match pkg with
          | Json.obj pkvs =>
            match jget pkvs ("scripts") Json.null with
            | Json.obj scripts =>
              (buildScripts (runPfx pm.name) scripts).map (fun l => pySort scriptLe l)
            | _ => Except.ok []
          | _ => Except.error PyExc.attributeError

/-- `run_git`: the opaque external command, answered by the oracle. -/
def run_git (w : World) (args : List String) (cwd : String) : Option String :=
  w.git args cwd

/-- Split at the first occurrence of `c` (CPython `s.split(c, 1)`). -/
def splitOnce (c : Char) : List Char → Option (List Char × List Char)
  | [] => none
  | x :: xs =>
    if x == c then some ([], xs)
    else (splitOnce c xs).map (fun p => (x :: p.1, p.2))

def detect_default_branch (w : World) (repo_path : String) : Option String :=
  let probe : Option String :=
    if (run_git w ["rev-parse", "--verify", "main"] repo_path).isSome then some ("main")
    else if (run_git w ["rev-parse", "--verify", "master"] repo_path).isSome then some ("master")
    else none
  match run_git w ["symbolic-ref", "--short", "refs/remotes/origin/HEAD"] repo_path with
  | some output =>
    if !output.data.isEmpty then
      match splitOnce '/' output.data with
      | some p => some (String.mk p.2)
      | none => some output
    else probe
  | none => probe

def CONFIG_DIR : String := ".wtmux"

def CONFIG_FILE : String := "config.json"

/-- `read_config`: a missing file (`OSError`) or unparseable contents
(`JSONDecodeError`) both yield `None`. -/
def read_config (w : World) (repo_path : String) : Option Json :=
  match w.files.lookup (osJoin (osJoin repo_path CONFIG_DIR) CONFIG_FILE) with
  | none => none
  | some contents => w.parse contents

/-- The operation trace of `write_config`: make the directory, write the
serialised config plus a newline to the sibling `.tmp` file, then
`os.replace` it over the target. -/
def write_config_ops (repo_path : String) (config : Json) : List FsOp :=
  let dir_path := osJoin repo_path CONFIG_DIR
  let config_path := osJoin dir_path CONFIG_FILE
  let tmp_path := config_path ++ ".tmp"
  [FsOp.mkdirs dir_path, FsOp.truncate tmp_path,
   FsOp.append tmp_path (dumpsIndent config), FsOp.append tmp_path ("\n"),
   FsOp.replace tmp_path config_path]

def write_config (w : World) (repo_path : String) (config : Json) : World :=
  applyOps w (write_config_ops repo_path config)

def isWtmuxLine (l : List Char) : Bool :=
  pyStrip l == (".wtmux").data || pyStrip l == (".wtmux/").data

/-- The membership scan of `ensure_gitignore`: some line, stripped, is
`.wtmux` or `.wtmux/`. -/
def gitignoreHas (contents : String) : Bool :=
  (splitNl contents.data).any isWtmuxLine

/-- The pure core of `ensure_gitignore` on the file contents (the empty
string when the file does not exist): returns (newly added?, new
contents). -/
def ensure_gitignore_core (contents : String) : Bool × String :=
  if gitignoreHas contents then (false, contents)
  else
    (true,
      contents ++ (if strEnds contents ("\n") then ("") else ("\n")) ++ (".wtmux\n"))

/-- `ensure_gitignore` on the world: reads `.gitignore` if present, and
writes the new contents only when the entry was missing. -/
def ensure_gitignore (w : World) (repo_path : String) : Bool × World :=
  let gitignore_path := osJoin repo_path (".gitignore")
  let contents := (w.files.lookup gitignore_path).getD ("")
  match ensure_gitignore_core contents with
  | (false, _) => (false, w)
  | (true, c2) => (true, { w with files := setFile w.files gitignore_path c2 })

/-
The tool catalog and the long-form usage instructions the server
returns from `initialize` / `tools/list`, transcribed from the source
(backslash-newline line continuations of the Python literal joined).
-/

def SERVER_INSTRUCTIONS : String :=
  "WTMux project configuration server. Use these tools to set up projects for the WTMux git worktree manager.\n" ++
  "\n" ++
  "## Workflow\n" ++
  "\n" ++
  "Follow this conversational flow — never skip straight to configure_project:\n" ++
  "\n" ++
  "1. **Analyze** — Call `analyze_project` with the repo path. This scans for env files, package manager, scripts, and default branch.\n" ++
  "\n" ++
  "2. **Present & Ask** — Show the analysis results to the user, grouped clearly:\n" ++
  "   - **Env files** found on disk (ask if any should be removed or if others are missing)\n" ++
  "   - **Package manager** and setup command (ask if correct)\n" ++
  "   - **Runners** grouped by category:\n" ++
  "     - `devServer` scripts are suggested as **default** runners (autoStart: true)\n" ++
  "     - `build`, `test`, `lint`, and `other` scripts are shown but NOT automatically        included as runners — ask the user which (if any) they want added as optional runners\n" ++
  "     - Not every script needs to be a runner. Let the user decide.\n" ++
  "   - **Default branch** (ask if correct)\n" ++
  "   - **Terminal start command** (ask if they want one, e.g. `claude`)\n" ++
  "\n" ++
  "3. **Refine** — Iterate on user feedback: add/remove runners, change default vs optional, adjust ports, add custom runners not in package.json, etc.\n" ++
  "\n" ++
  "4. **Configure** — Once the user confirms, call `configure_project` with the finalized settings.\n" ++
  "\n" ++
  "## Rules\n" ++
  "\n" ++
  "- The `analyze_project` results are authoritative for env files — NEVER guess env files by checking git remote, git ls-files, .gitignore, or any other means.\n" ++
  "- ALWAYS present findings to the user before calling `configure_project`. Never configure without user review.\n" ++
  "- If the project already has a `.wtmux/config.json` (returned in the analysis as `existingConfig`), show what\x27s currently configured and ask what they\x27d like to change rather than starting from scratch."

def repoPathSchema : Json :=
  Json.obj [("type", Json.str ("string")),
    ("description", Json.str ("Absolute path to the git repository root"))]

def TOOL_DEFINITIONS : List Json :=
  [Json.obj [
    ("name", Json.str ("analyze_project")),
    ("description", Json.str ("Scan a git repository to detect its project structure: env files, package manager, scripts (with categories), and default branch. Returns a structured analysis to present to the user before configuring.")),
    ("inputSchema", Json.obj [
      ("type", Json.str ("object")),
      ("properties", Json.obj [("repoPath", repoPathSchema)]),
      ("required", Json.arr [Json.str ("repoPath")])])],
   Json.obj [
    ("name", Json.str ("configure_project")),
    ("description", Json.str ("Configure a project for WTMux by writing .wtmux/config.json and importing it into the app. Provide setup commands (e.g. npm install), run configurations (dev servers, watchers), env files to copy between worktrees, and an optional terminal start command. The project will automatically appear in WTMux\x27s sidebar.")),
    ("inputSchema", Json.obj [
      ("type", Json.str ("object")),
      ("properties", Json.obj [
        ("repoPath", repoPathSchema),
        ("envFilesToCopy", Json.obj [
          ("type", Json.str ("array")),
          ("items", Json.obj [("type", Json.str ("string"))]),
          ("description", Json.str ("Relative paths to env files to copy to new worktrees (e.g. .env, .env.local). IMPORTANT: Only include files that actually exist on the local filesystem. Do NOT check git remote, git ls-files, or .gitignore to guess env file names. If you haven\x27t confirmed a file exists locally, do not include it."))]),
        ("setupCommands", Json.obj [
          ("type", Json.str ("array")),
          ("items", Json.obj [("type", Json.str ("string"))]),
          ("description", Json.str ("Commands to run when setting up a new worktree (e.g. npm install, bundle install)"))]),
        ("runConfigurations", Json.obj [
          ("type", Json.str ("array")),
          ("items", Json.obj [
            ("type", Json.str ("object")),
            ("properties", Json.obj [
              ("name", Json.obj [
                ("type", Json.str ("string")),
                ("description", Json.str ("Display name for this runner (e.g. \x27Dev Server\x27, \x27Tailwind\x27)"))]),
              ("command", Json.obj [
                ("type", Json.str ("string")),
                ("description", Json.str ("Shell command to run (e.g. \x27npm run dev\x27, \x27cargo watch\x27)"))]),
              ("port", Json.obj [
                ("type", Json.str ("integer")),
                ("description", Json.str ("Port number this service listens on, if any"))]),
              ("autoStart", Json.obj [
                ("type", Json.str ("boolean")),
                ("description", Json.str ("Whether this is a default runner (included in Start Default and auto-launched when the runner panel opens). Optional runners (false) must be started individually."))]),
              ("order", Json.obj [
                ("type", Json.str ("integer")),
                ("description", Json.str ("Sort order for display (lower numbers appear first)"))])]),
            ("required", Json.arr [Json.str ("name"), Json.str ("command")])]),
          ("description", Json.str ("Dev server and process runner configurations"))]),
        ("terminalStartCommand", Json.obj [
          ("type", Json.str ("string")),
          ("description", Json.str ("Command to run when opening a new terminal in a worktree"))]),
        ("startClaudeInTerminals", Json.obj [
          ("type", Json.str ("boolean")),
          ("description", Json.str ("If true, automatically start Claude Code in new terminal tabs. Sets terminalStartCommand to \x27claude\x27."))]),
        ("projectName", Json.obj [
          ("type", Json.str ("string")),
          ("description", Json.str ("Display name for the project (defaults to repo directory name)"))]),
        ("defaultBranch", Json.obj [
          ("type", Json.str ("string")),
          ("description", Json.str ("Default branch name (defaults to \x27main\x27)"))]),
        ("worktreeBasePath", Json.obj [
          ("type", Json.str ("string")),
          ("description", Json.str ("Directory where worktrees will be created (defaults to \x27<repoPath>-worktrees\x27)"))])]),
      ("required", Json.arr [Json.str ("repoPath")])])],
   Json.obj [
    ("name", Json.str ("get_project_config")),
    ("description", Json.str ("Read the current .wtmux/config.json for a project. Returns the configuration if it exists, or a message indicating the project is not yet configured.")),
    ("inputSchema", Json.obj [
      ("type", Json.str ("object")),
      ("properties", Json.obj [("repoPath", repoPathSchema)]),
      ("required", Json.arr [Json.str ("repoPath")])])]]

/-
Tool handlers.
-/

def handle_analyze_project (w : World) (arguments : Json) : Except PyExc Json :=
  match pyOr arguments (Json.obj []) with
  | Json.obj akvs =>
    let repo_path := jget akvs ("repoPath") Json.null
    if !(pyTruthy repo_path) then
      Except.ok (error_result ("Missing required parameter: repoPath"))
    else
      match repo_path with
      | Json.str repo =>
        if !(strStarts repo ("/")) then
          Except.ok (error_result ("repoPath must be an absolute path"))
        else if !(isdir w (osJoin repo (".git"))) then
          Except.ok (error_result ("No .git directory found at " ++ repo ++ ". Is this a git repository?"))
        else
          let project_name := basename repo
          let env_files := scan_env_files w repo
          let pm := detect_package_manager w repo
          match parse_scripts w repo pm with
          | Except.error e => Except.error e
          | Except.ok scripts =>
            let default_branch := detect_default_branch w repo
            let existing_config := read_config w repo
            let analysis := Json.obj [
              ("projectName", Json.str project_name),
              ("envFiles", Json.arr (env_files.map Json.str)),
              ("packageManager", match pm with | some p => pmToJson p | none => Json.null),
              ("scripts", Json.arr (scripts.map scriptToJson)),
              ("defaultBranch", match default_branch with | some b => Json.str b | none => Json.null),
              ("existingConfig", match existing_config with | some c => c | none => Json.null)]
            Except.ok (text_result (dumpsIndent analysis))
      | _ => Except.error PyExc.attributeError
  | _ => Except.error PyExc.attributeError

/-- Is the port valid under `isinstance(port, int) and 1 <= port <= 65535`?
CPython `bool` is a subclass of `int`, so `true` (= 1) passes the check
and `false` (= 0) fails it. -/
def portOk : Json → Bool
  | Json.int n => decide (1 ≤ n) && decide (n ≤ 65535)
  | Json.bool b => b
  | _ => false

def invalidPortMsg (port name : Json) : String :=
  "Invalid port " ++ pyStr port ++ " for \x27" ++ pyStr name ++ "\x27. Must be 1-65535."

/-- The `for i, rc in enumerate(...)` loop of `handle_configure_project`:
skips non-dict elements and elements without a truthy name and command;
validates the port of the surviving elements, erroring with the message
`error_result` receives; builds the entry dicts in key insertion order,
with `port` always present (possibly `null`) and `order` defaulting to
the enumeration index `i`. -/
def build_run_configs : Nat → List Json → Except String (List Json)
  | _, [] => Except.ok []
  | i, rc :: rest =>
    match rc with
    | Json.obj rkvs =>
      let name := jget rkvs ("name") Json.null
      let command := jget rkvs ("command") Json.null
      if !(pyTruthy name) || !(pyTruthy command) then build_run_configs (i + 1) rest
      else
        let port := jget rkvs ("port") Json.null
        if !(isNull port) && !(portOk port) then
          Except.error (invalidPortMsg port name)
        else
          let auto_start := jget rkvs ("autoStart") (Json.bool false)
          let order := jget rkvs ("order") (Json.int (Int.ofNat i))
          (build_run_configs (i + 1) rest).map
            (fun r => Json.obj [("name", name), ("command", command), ("port", port),
              ("autoStart", auto_start), ("order", order)] :: r)
    | _ => build_run_configs (i + 1) rest

/-- The summary line for one built run-configuration dict. -/
def rcSummaryLine (rc : Json) : String :=
  match rc with
  | Json.obj rkvs =>
    let port_str :=
      if pyTruthy (jget rkvs ("port") Json.null) then
        (" (port ") ++ pyStr (jget rkvs ("port") Json.null) ++ ")"
      else ("")
    let auto_str := if pyTruthy (jget rkvs ("autoStart") Json.null) then (" [default]") else (" [optional]")
    "    " ++ pyStr (jget rkvs ("name") Json.null) ++ ": " ++ pyStr (jget rkvs ("command") Json.null) ++ port_str ++ auto_str
  | _ => ""

/-- The summary `handle_configure_project` builds after a successful
write.  `", ".join(env_files)` and `len`/iteration of `setup_commands`
can raise `TypeError` on unsuitable caller-supplied values, after the
config has already been written. -/
def build_summary (repo : String) (env_files setup_commands : Json)
    (run_configs : List Json) (terminal_start_command : Option Json)
    (gitignore_added : Bool) : Except PyExc String :=
  let base := ["Configured " ++ repo ++ ":"]
  match (if pyTruthy env_files then (pyJoin (", ") env_files).map (fun s => ["- Env files: " ++ s]) else Except.ok []) with
  | Except.error e => Except.error e
  | Except.ok envLines =>
    match (if pyTruthy setup_commands then
        (pyLen setup_commands).bind (fun n =>
          (pyIterate setup_commands).map (fun cmds =>
            ("- Setup commands: " ++ toString n) :: cmds.map (fun c => "    " ++ pyStr c)))
      else Except.ok []) with
    | Except.error e => Except.error e
    | Except.ok setupLines =>
      let rcLines :=
        if !run_configs.isEmpty then
          ("- Run configurations: " ++ toString run_configs.length) :: run_configs.map rcSummaryLine
        else []
      let tscLines :=
        match terminal_start_command with
        | some t => if pyTruthy t then ["- Terminal start command: " ++ pyStr t] else []
        | none => []
      let gitignore_note :=
        if gitignore_added then ("Added .wtmux to .gitignore.")
        else (".wtmux was already in .gitignore.")
      let lines := base ++ envLines ++ setupLines ++ rcLines ++ tscLines ++
        ["", ".wtmux/config.json written and project configured for WTMux. " ++ gitignore_note]
      Except.ok (joinSep ("\n") lines)

def handle_configure_project (w : World) (arguments : Json) : Except PyExc Json × World :=
  match pyOr arguments (Json.obj []) with
  | Json.obj akvs =>
    let repo_path := jget akvs ("repoPath") Json.null
    if !(pyTruthy repo_path) then
      (Except.ok (error_result ("Missing required parameter: repoPath")), w)
    else
      match repo_path with
      | Json.str repo =>
        if !(strStarts repo ("/")) then
          (Except.ok (error_result ("repoPath must be an absolute path")), w)
        else if !(isdir w (osJoin repo (".git"))) then
          (Except.ok (error_result ("No .git directory found at " ++ repo ++ ". Is this a git repository?")), w)
        else
          let env_files := jget akvs ("envFilesToCopy") (Json.arr [])
          let setup_commands := jget akvs ("setupCommands") (Json.arr [])
          let terminal_start_command : Option Json :=
            if pyTruthy (jget akvs ("startClaudeInTerminals") Json.null) then
              some (Json.str ("claude"))
            else if pyTruthy (jget akvs ("terminalStartCommand") Json.null) then
              some (jget akvs ("terminalStartCommand") Json.null)
            else none
          let project_name := jget akvs ("projectName") Json.null
          let default_branch := jget akvs ("defaultBranch") Json.null
          let worktree_base_path := jget akvs ("worktreeBasePath") Json.null
          match pyIterate (jget akvs ("runConfigurations") (Json.arr [])) with
          | Except.error e => (Except.error e, w)
          | Except.ok rcs =>
            match build_run_configs 0 rcs with
            | Except.error msg => (Except.ok (error_result msg), w)
            | Except.ok run_configs =>
              let config := Json.obj (
                [("envFilesToCopy", env_files), ("setupCommands", setup_commands),
                 ("runConfigurations", Json.arr run_configs)] ++
                (match terminal_start_command with
                 | some t => [("terminalStartCommand", t)]
                 | none => []) ++
                (if isNull project_name then [] else [("projectName", project_name)]) ++
                (if isNull default_branch then [] else [("defaultBranch", default_branch)]) ++
                (if isNull worktree_base_path then [] else [("worktreeBasePath", worktree_base_path)]))
              let w2 := write_config w repo config
              match ensure_gitignore w2 repo with
              | (gitignore_added, w3) =>
                match build_summary repo env_files setup_commands run_configs
                    terminal_start_command gitignore_added with
                | Except.error e => (Except.error e, w3)
                | Except.ok text => (Except.ok (text_result text), w3)
      | _ => (Except.error PyExc.attributeError, w)
  | _ => (Except.error PyExc.attributeError, w)

def handle_get_project_config (w : World) (arguments : Json) : Except PyExc Json :=
  match pyOr arguments (Json.obj []) with
  | Json.obj akvs =>
    let repo_path := jget akvs ("repoPath") Json.null
    if !(pyTruthy repo_path) then
      Except.ok (error_result ("Missing required parameter: repoPath"))
    else
      match repo_path with
      | Json.str repo =>
        if !(strStarts repo ("/")) then
          Except.ok (error_result ("repoPath must be an absolute path"))
        else
          match read_config w repo with
          | none =>
            Except.ok (text_result ("No .wtmux/config.json found at " ++ repo ++ ". Project is not yet configured for WTMux."))
          | some config => Except.ok (text_result (dumpsIndent config))
      | _ => Except.error PyExc.attributeError
  | _ => Except.error PyExc.attributeError

/-- The `TOOL_HANDLERS` dispatch of `tools/call`. -/
def dispatchTool (w : World) (tool_name arguments : Json) : Except PyExc Json × World :=
  if jeqStr tool_name ("analyze_project") then (handle_analyze_project w arguments, w)
  else if jeqStr tool_name ("configure_project") then handle_configure_project w arguments
  else if jeqStr tool_name ("get_project_config") then (handle_get_project_config w arguments, w)
  else (Except.ok (error_result ("Unknown tool: " ++ pyStr tool_name)), w)

def rpcResult (msg_id result : Json) : Json :=
  Json.obj [("jsonrpc", Json.str ("2.0")), ("id", msg_id), ("result", result)]

def rpcError (msg_id : Json) (code : Int) (message : String) : Json :=
  Json.obj [("jsonrpc", Json.str ("2.0")), ("id", msg_id),
    ("error", Json.obj [("code", Json.int code), ("message", Json.str message)])]

def initializeResult : Json :=
  Json.obj [
    ("protocolVersion", Json.str ("2024-11-05")),
    ("capabilities", Json.obj [("tools", Json.obj [])]),
    ("serverInfo", Json.obj [("name", Json.str SERVER_NAME), ("version", Json.str SERVER_VERSION)]),
    ("instructions", Json.str SERVER_INSTRUCTIONS)]

/-- `handle_request`: returns the response (or `None` for notifications)
together with the possibly changed world; raises on malformed shapes,
exactly as the source does (it has no try/except). -/
def handle_request (w : World) (msg : Json) : Except PyExc (Option Json) × World :=
  match pyGet msg ("method") (Json.str ("")) with
  | Except.error e => (Except.error e, w)
  | Except.ok method =>
    match pyGet msg ("params") (Json.obj []) with
    | Except.error e => (Except.error e, w)
    | Except.ok params =>
      match pyGet msg ("id") Json.null with
      | Except.error e => (Except.error e, w)
      | Except.ok msg_id =>
        if jeqStr method ("initialize") then
          (Except.ok (some (rpcResult msg_id initializeResult)), w)
        else if jeqStr method ("notifications/initialized") then
          (Except.ok none, w)
        else if jeqStr method ("tools/list") then
          (Except.ok (some (rpcResult msg_id (Json.obj [("tools", Json.arr TOOL_DEFINITIONS)]))), w)
        else if jeqStr method ("tools/call") then
          match pyGet params ("name") (Json.str ("")) with
          | Except.error e => (Except.error e, w)
          | Except.ok tool_name =>
            match pyGet params ("arguments") (Json.obj []) with
            | Except.error e => (Except.error e, w)
            | Except.ok arguments =>
              match dispatchTool w tool_name arguments with
              | (Except.error e, w2) => (Except.error e, w2)
              | (Except.ok result, w2) => (Except.ok (some (rpcResult msg_id result)), w2)
        else if jeqStr method ("ping") then
          (Except.ok (some (rpcResult msg_id (Json.obj []))), w)
        else if !(isNull msg_id) then
          (Except.ok (some (rpcError msg_id (-32601) ("Method not found: " ++ pyStr method))), w)
        else
          (Except.ok none, w)

/-- One line of standard input, after `line.strip()` and `json.loads`
(the stdlib parser, abstracted): blank, not valid JSON, or a parsed
message. -/
inductive Line where
  | blank
  | noParse
  | parsed (msg : Json)

/-- The body of the `for line in sys.stdin` loop for one line: the
response line written (the compact dump `send_response` emits), or a
raised exception. -/
def processLine (w : World) (l : Line) : Except PyExc (Option String) × World :=
  match l with
  | Line.blank => (Except.ok none, w)
  | Line.noParse => (Except.ok none, w)
  | Line.parsed msg =>
    match handle_request w msg with
    | (Except.error e, w2) => (Except.error e, w2)
    | (Except.ok response, w2) => (Except.ok (response.map dumpsCompact), w2)

/-- `main`: process the input lines in order, emitting each response
line immediately; an uncaught exception terminates the process, leaving
every later line unprocessed.  Result: (output lines in order, final
world, the uncaught exception if the process died). -/
def runServer (w : World) : List Line → List String × World × Option PyExc
  | [] => ([], w, none)
  | l :: rest =>
    match processLine w l with
    | (Except.error e, w2) => ([], w2, some e)
    | (Except.ok out, w2) =>
      match runServer w2 rest with
      | (outs, w3, crash) => (out.toList ++ outs, w3, crash)

/-
Specification-side definitions: reformulations written from the words
of the specification, to be compared with the embedded source.
-/

/-- Field of a JSON object, with default; `d` when not an object. -/
def getField (j : Json) (k : String) (d : Json) : Json :=
  match j with
  | Json.obj kvs => jget kvs k d
  | _ => d

/-- Key of a JSON object, if the value is an object carrying it. -/
def jsonKey (j : Json) (k : String) : Option Json :=
  match j with
  | Json.obj kvs => kvs.lookup k
  | _ => none

/-- Is the tool-result JSON marked as an error (`isError` truthy)? -/
def resultIsError (j : Json) : Bool := pyTruthy (getField j ("isError") Json.null)

/-- The methods the dispatcher recognises. -/
def knownMethod (m : Json) : Bool :=
  jeqStr m ("initialize") || jeqStr m ("notifications/initialized") ||
    jeqStr m ("tools/list") || jeqStr m ("tools/call") || jeqStr m ("ping")

/-- Does the dispatcher emit a response line for a message with this
`method` and `id` (specification-side characterisation)?  A response is
written for the four always-answering methods whatever the id, and for
an unknown method exactly when the id is not null/absent;
`notifications/initialized` is never answered. -/
def responds (method msg_id : Json) : Bool :=
  jeqStr method ("initialize") || jeqStr method ("tools/list") ||
    jeqStr method ("tools/call") || jeqStr method ("ping") ||
    (!(knownMethod method) && !(isNull msg_id))

/-- Spec-side element validity of one run configuration: an object with
a truthy name and a truthy command. -/
def rcShapeOk (rc : Json) : Bool :=
  pyTruthy (getField rc ("name") Json.null) && pyTruthy (getField rc ("command") Json.null)

/-- Spec-side: a run configuration that passes the shape filter but
carries a present, invalid port. -/
def rcBadPort (rc : Json) : Bool :=
  rcShapeOk rc && !(isNull (getField rc ("port") Json.null)) &&
    !(portOk (getField rc ("port") Json.null))

/-- Spec-side entry builder: the persisted dict for element `rc` at
original position `i`, or `none` when the element is skipped.  `order`
defaults to `i`, the position in the caller's original list. -/
def mkEntry (irc : Nat × Json) : Option Json :=
  match irc.2 with
  | Json.obj rkvs =>
    if pyTruthy (jget rkvs ("name") Json.null) && pyTruthy (jget rkvs ("command") Json.null) then
      some (Json.obj [("name", jget rkvs ("name") Json.null),
        ("command", jget rkvs ("command") Json.null),
        ("port", jget rkvs ("port") Json.null),
        ("autoStart", jget rkvs ("autoStart") (Json.bool false)),
        ("order", jget rkvs ("order") (Json.int (Int.ofNat irc.1)))])
    else none
  | _ => none

/-- Spec-side: does a candidate row of the package-manager table match
(manifest present, and the lock file present when required)? -/
def candMatches (w : World) (repo : String) (c : String × Option String × String × String) : Bool :=
  isfile w (osJoin repo c.1) &&
    (match c.2.1 with
     | none => true
     | some lf => isfile w (osJoin repo lf))

def pmOfCandidate (c : String × Option String × String × String) : PkgManager :=
  ⟨c.2.2.1, c.2.2.2, c.2.1⟩

/-- Spec-side ordered category table: predicate and category, evaluated
top to bottom, first satisfied wins, `other` as fallback.  The
predicates receive the lowercased name and command. -/
def catTable : List ((String → String → Bool) × String) :=
  [(fun n c => DEV_NAME_PATTERNS.any (fun p => strContains n p) ||
      DEV_CMD_PATTERNS.any (fun p => strContains c p), "devServer"),
   (fun n _ => BUILD_PATTERNS.any (fun p => strContains n p), "build"),
   (fun n _ => TEST_PATTERNS.any (fun p => strContains n p), "test"),
   (fun n _ => LINT_PATTERNS.any (fun p => strContains n p), "lint")]

def firstCat (name command : String) : String :=
  ((catTable.find? (fun pc => pc.1 (strLower name) (strLower command))).map Prod.snd).getD ("other")

/-- Spec-side env scan: the repo-relative paths of qualifying files, in
traversal order, possibly with repeats, by recursive descent bounded by
`fuel` that does not enter skip-listed or dot-prefixed directories. -/
def specDir (w : World) (repo : String) : Nat → String → List String
  | 0, _ => []
  | fuel + 1, dirpath =>
    (listdir w dirpath).foldr
      (fun name r =>
        (let full := osJoin dirpath name
         if isdir w full then
           if !(SKIP_DIRS.contains name) && !(strStarts name (".")) then
             specDir w repo fuel full
           else []
         else if isfile w full && is_env_file name then [relpathUnder full repo]
         else []) ++ r)
      []

/-- Append an element unless already present (the dedup step of the
scanner's accumulator). -/
def insertNew (acc : List String) (x : String) : List String :=
  if acc.contains x then acc else acc ++ [x]

/-
Concrete fixtures for witnesses and counterexamples.
-/

def emptyGit : List String → String → Option String := fun _ _ => none

def emptyParse : String → Option Json := fun _ => none

/-- An empty world. -/
def w0 : World := ⟨[], [], emptyGit, emptyParse⟩

/-- A world holding just the git repository `/r`. -/
def wRepo : World := ⟨[], ["/r", "/r/.git"], emptyGit, emptyParse⟩

/-- The root layout of the spec example: `.env`, `.env.local`,
`config.env`, `notes.txt` in the repository root. -/
def wEnv : World :=
  ⟨[("/r/.env", ""), ("/r/.env.local", ""), ("/r/config.env", ""), ("/r/notes.txt", "")],
   ["/r"], emptyGit, emptyParse⟩

/-- A world with a JS manifest plus its yarn lock file alongside another
ecosystem manifest. -/
def wPm : World :=
  ⟨[("/r/package.json", ""), ("/r/yarn.lock", ""), ("/r/Gemfile", "")],
   ["/r"], emptyGit, emptyParse⟩

def pkgScripts : Json :=
  Json.obj [("scripts", Json.obj [("build:dev-assets", Json.str ("x")),
    ("lint", Json.str ("eslint ."))])]

/-- A world whose `package.json` parses to `pkgScripts`. -/
def wScripts : World :=
  ⟨[("/r/package.json", "PKG")], ["/r"], emptyGit,
   fun s => if s == "PKG" then some pkgScripts else none⟩

/-- A `tools/call` of `configure_project` whose `repoPath` is the
integer `123`: `repo_path.startswith("/")` raises `AttributeError`. -/
def c1BadMsg : Json :=
  Json.obj [("jsonrpc", Json.str ("2.0")), ("id", Json.int 1),
    ("method", Json.str ("tools/call")),
    ("params", Json.obj [("name", Json.str ("configure_project")),
      ("arguments", Json.obj [("repoPath", Json.int 123)])])]

/-- A `ping` notification: no `id` key at all. -/
def pingNoId : Json := Json.obj [("method", Json.str ("ping"))]

/-- `configure_project` arguments carrying one run configuration that
has an out-of-range port but no name and no command. -/
def c4Args : Json :=
  Json.obj [("repoPath", Json.str ("/r")),
    ("runConfigurations", Json.arr [Json.obj [("port", Json.int 70000)]])]

/-- `configure_project` arguments carrying one valid run configuration
without a port. -/
def c5Args : Json :=
  Json.obj [("repoPath", Json.str ("/r")),
    ("runConfigurations", Json.arr [Json.obj [("name", Json.str ("a")),
      ("command", Json.str ("b"))]])]

/-
Helper lemmas.
-/

theorem strLtB_irrefl : ∀ a, strLtB a a = false
  | [] => rfl
  | c :: r => by simp [strLtB, strLtB_irrefl r]

theorem strLtB_asymm : ∀ a b, strLtB a b = true → strLtB b a = false
  | [], [], h => by simp [strLtB] at h
  | [], _ :: _, _ => rfl
  | _ :: _, [], h => by simp [strLtB] at h
  | a :: as, b :: bs, h => by
    simp only [strLtB] at h ⊢
    by_cases g1 : a.toNat < b.toNat
    · have g2 : ¬ b.toNat < a.toNat := by omega
      simp [g1, g2]
    · by_cases g2 : b.toNat < a.toNat
      · simp [g1, g2] at h
      · simp only [g1, g2, if_false] at h ⊢
        simp [strLtB_asymm as bs h]

theorem strLtB_le_trans :
    ∀ x y z, strLtB y x = false → strLtB z y = false → strLtB z x = false
  | [], [], [], _, _ => rfl
  | [], [], _ :: _, _, h2 => h2
  | [], _ :: _, [], _, _ => rfl
  | [], _ :: _, _ :: _, _, _ => rfl
  | _ :: _, [], _, h1, _ => absurd h1 (by simp [strLtB])
  | _ :: _, _ :: _, [], _, h2 => absurd h2 (by simp [strLtB])
  | x :: xs, y :: ys, z :: zs, h1, h2 => by
    simp only [strLtB] at h1 h2 ⊢
    by_cases e1 : y.toNat < x.toNat
    · simp [e1] at h1
    · by_cases e2 : z.toNat < y.toNat
      · simp [e2] at h2
      · have e3 : ¬ z.toNat < x.toNat := by omega
        simp only [e1, if_false] at h1
        simp only [e2, if_false] at h2
        simp only [e3, if_false]
        by_cases e4 : x.toNat < z.toNat
        · simp [e4]
        · have e5 : ¬ x.toNat < y.toNat := by omega
          have e6 : ¬ y.toNat < z.toNat := by omega
          simp only [e5, if_false] at h1
          simp only [e6, if_false] at h2
          simp only [e4, if_false]
          exact strLtB_le_trans xs ys zs h1 h2

theorem pyStrLe_total (s t : String) : pyStrLe s t = true ∨ pyStrLe t s = true := by
  by_cases h : strLtB t.data s.data = true
  · right
    simp [pyStrLe, strLtB_asymm _ _ h]
  · left
    simp [pyStrLe]
    simpa using h

theorem pyStrLe_trans (s t u : String) (h1 : pyStrLe s t = true) (h2 : pyStrLe t u = true) :
    pyStrLe s u = true := by
  simp only [pyStrLe, Bool.not_eq_true'] at h1 h2 ⊢
  exact strLtB_le_trans s.data t.data u.data h1 h2

/-- Sortedness of `pySort` from totality and transitivity of the
comparison. -/
theorem pySort_pairwise {α : Type} (le : α → α → Bool)
    (htot : ∀ a b, le a b = true ∨ le b a = true)
    (htr : ∀ a b c, le a b = true → le b c = true → le a c = true)
    (l : List α) : (pySort le l).Pairwise (fun a b => le a b = true) :=
  @List.sorted_insertionSort α (fun a b => le a b = true)
    (fun _ _ => instDecidableEqBool _ _) ⟨htot⟩ ⟨fun _ _ _ => htr _ _ _⟩ l

theorem pySort_perm {α : Type} (le : α → α → Bool) (l : List α) :
    (pySort le l).Perm l :=
  @List.perm_insertionSort α (fun a b => le a b = true)
    (fun _ _ => instDecidableEqBool _ _) l

theorem mem_foldl_insertNew (l : List String) :
    ∀ (acc : List String) (x : String),
      x ∈ l.foldl insertNew acc ↔ x ∈ acc ∨ x ∈ l := by
  induction l with
  | nil => simp
  | cons y ys ih =>
    intro acc x
    simp only [List.foldl_cons, insertNew]
    cases hy : acc.contains y
    · simp only [hy, Bool.false_eq_true, if_false, ih, List.mem_append,
        List.mem_singleton, List.mem_cons]
      tauto
    · have hmem : y ∈ acc := by simpa using hy
      simp only [hy, if_true, ih, List.mem_cons]
      constructor
      · rintro (h | h)
        · exact Or.inl h
        · exact Or.inr (Or.inr h)
      · rintro (h | h | h)
        · exact Or.inl h
        · exact Or.inl (h ▸ hmem)
        · exact Or.inr h

theorem nodup_foldl_insertNew (l : List String) :
    ∀ (acc : List String), acc.Nodup → (l.foldl insertNew acc).Nodup := by
  induction l with
  | nil => intro acc h; simpa using h
  | cons y ys ih =>
    intro acc hacc
    simp only [List.foldl_cons]
    apply ih
    unfold insertNew
    cases hy : acc.contains y
    · simp only [hy, Bool.false_eq_true, if_false]
      refine List.Nodup.append hacc (List.nodup_singleton y) ?_
      intro a ha hb
      rcases List.mem_singleton.1 hb with rfl
      have hnot : a ∉ acc := by simpa using hy
      exact hnot ha
    · simpa [hy] using hacc

theorem lookup_filter_ne (fs : List (String × String)) (p q : String) (h : q ≠ p) :
    (fs.filter (fun kv => !(kv.1 == p))).lookup q = fs.lookup q := by
  induction fs with
  | nil => rfl
  | cons kv rest ih =>
    by_cases hk : kv.1 = p
    · have : (kv.1 == p) = true := by simpa using hk
      simp only [List.filter_cons, this]
      have : (q == kv.1) = false := by
        simp only [beq_eq_false_iff_ne, ne_eq]
        exact fun hq => h (hq.trans hk)
      simp [List.lookup, this, ih]
    · have hb : (kv.1 == p) = false := by simpa using hk
      simp only [List.filter_cons, hb]
      simp only [Bool.not_false, if_true]
      by_cases hq : q = kv.1
      · have : (q == kv.1) = true := by simpa using hq
        simp [List.lookup, this]
      · have : (q == kv.1) = false := by simpa using hq
        simp [List.lookup, this, ih]

theorem lookup_setFile_self (fs : List (String × String)) (p s : String) :
    (setFile fs p s).lookup p = some s := by
  simp [setFile, List.lookup]

theorem lookup_setFile_ne (fs : List (String × String)) (p q s : String) (h : q ≠ p) :
    (setFile fs p s).lookup q = fs.lookup q := by
  have : (q == p) = false := by simpa using h
  simp [setFile, List.lookup, this, lookup_filter_ne _ _ _ h]

theorem lookup_removeFile_ne (fs : List (String × String)) (p q : String) (h : q ≠ p) :
    (removeFile fs p).lookup q = fs.lookup q :=
  lookup_filter_ne fs p q h

theorem splitNl_ne_nil : ∀ l, splitNl l ≠ []
  | [] => by simp [splitNl]
  | c :: t => by
    simp only [splitNl]
    split
    · simp
    · cases h : splitNl t <;> simp

theorem splitNl_append : ∀ (a b : List Char), splitNl (a ++ '\n' :: b) = splitNl a ++ splitNl b
  | [], b => by simp [splitNl]
  | c :: t, b => by
    by_cases hc : c = '\n'
    · subst hc
      simp [splitNl, splitNl_append t b]
    · have ih := splitNl_append t b
      simp only [List.cons_append, splitNl, hc, if_false, List.append_eq]
      rw [ih]
      cases h : splitNl t with
      | nil => exact absurd h (splitNl_ne_nil t)
      | cons x r => simp

theorem detectFrom_eq_find (w : World) (repo : String) :
    ∀ (table : List (String × Option String × String × String)),
      detectFrom w repo table = (table.find? (candMatches w repo)).map pmOfCandidate := by
  intro table
  induction table with
  | nil => rfl
  | cons c rest ih =>
    obtain ⟨m, lock, n, s⟩ := c
    cases hm : isfile w (osJoin repo m)
    · simp [detectFrom, candMatches, hm, List.find?_cons, ih]
    · cases lock with
      | none => simp [detectFrom, candMatches, hm, pmOfCandidate, List.find?_cons]
      | some lf =>
        cases hl : isfile w (osJoin repo lf)
        · simp [detectFrom, candMatches, hm, hl, List.find?_cons, ih]
        · simp [detectFrom, candMatches, hm, hl, pmOfCandidate, List.find?_cons]

theorem rcBadPort_obj_of_true (rc : Json) (h : rcBadPort rc = true) :
    ∃ rkvs, rc = Json.obj rkvs := by
  cases rc <;> simp [rcBadPort, rcShapeOk, getField, pyTruthy] at h
  case obj rkvs => exact ⟨rkvs, rfl⟩

theorem build_run_configs_error_of_find :
    ∀ (i : Nat) (rcs : List Json) (bad : Json),
      rcs.find? rcBadPort = some bad →
      build_run_configs i rcs =
        Except.error (invalidPortMsg (getField bad ("port") Json.null)
          (getField bad ("name") Json.null)) := by
  intro i rcs
  induction rcs generalizing i with
  | nil => intro bad h; simp [List.find?] at h
  | cons rc rest ih =>
    intro bad h
    cases hb : rcBadPort rc
    · rw [List.find?_cons_of_neg _ (by simp [hb])] at h
      have hrest := ih (i + 1) bad h
      cases rc with
      | obj rkvs =>
        by_cases hn : pyTruthy (jget rkvs ("name") Json.null) = true
        · by_cases hcmd : pyTruthy (jget rkvs ("command") Json.null) = true
          · have hport : (!(isNull (jget rkvs ("port") Json.null)) &&
                !(portOk (jget rkvs ("port") Json.null))) = false := by
              simpa [rcBadPort, rcShapeOk, getField, hn, hcmd] using hb
            simp [build_run_configs, hn, hcmd, hport, hrest, Except.map]
          · have hcf : pyTruthy (jget rkvs ("command") Json.null) = false := by
              simpa using hcmd
            simp [build_run_configs, hn, hcf, hrest]
        · have hnf : pyTruthy (jget rkvs ("name") Json.null) = false := by
            simpa using hn
          simp [build_run_configs, hnf, hrest]
      | null => simpa [build_run_configs] using hrest
      | bool b => simpa [build_run_configs] using hrest
      | int n => simpa [build_run_configs] using hrest
      | str s => simpa [build_run_configs] using hrest
      | arr xs => simpa [build_run_configs] using hrest
    · rw [List.find?_cons_of_pos _ (by simp [hb])] at h
      have hbad : rc = bad := Option.some.inj h
      subst hbad
      obtain ⟨rkvs, rfl⟩ := rcBadPort_obj_of_true _ hb
      have hn : pyTruthy (jget rkvs ("name") Json.null) = true := by
        have hx := hb
        simp only [rcBadPort, rcShapeOk, getField, Bool.and_eq_true] at hx
        tauto
      have hcmd : pyTruthy (jget rkvs ("command") Json.null) = true := by
        have hx := hb
        simp only [rcBadPort, rcShapeOk, getField, Bool.and_eq_true] at hx
        tauto
      have hport : (!(isNull (jget rkvs ("port") Json.null)) &&
          !(portOk (jget rkvs ("port") Json.null))) = true := by
        have hx := hb
        simp only [rcBadPort, rcShapeOk, getField, Bool.and_eq_true] at hx
        simp only [Bool.and_eq_true]
        tauto
      simp [build_run_configs, hn, hcmd, hport, invalidPortMsg, getField]

theorem build_run_configs_eq_filterMap :
    ∀ (i : Nat) (rcs : List Json),
      (∀ rc ∈ rcs, rcBadPort rc = false) →
      build_run_configs i rcs = Except.ok ((rcs.enumFrom i).filterMap mkEntry) := by
  intro i rcs
  induction rcs generalizing i with
  | nil => intro _; rfl
  | cons rc rest ih =>
    intro h
    have hrc := h rc (List.mem_cons_self _ _)
    have hrest := ih (i + 1) (fun x hx => h x (List.mem_cons_of_mem _ hx))
    cases rc with
    | obj rkvs =>
      by_cases hn : pyTruthy (jget rkvs ("name") Json.null) = true
      · by_cases hcmd : pyTruthy (jget rkvs ("command") Json.null) = true
        · have hport : (!(isNull (jget rkvs ("port") Json.null)) &&
              !(portOk (jget rkvs ("port") Json.null))) = false := by
            simpa [rcBadPort, rcShapeOk, getField, hn, hcmd] using hrc
          simp [build_run_configs, hn, hcmd, hport, hrest, Except.map,
            List.enumFrom, List.filterMap_cons, mkEntry]
        · have hcf : pyTruthy (jget rkvs ("command") Json.null) = false := by
            simpa using hcmd
          simp [build_run_configs, hn, hcf, hrest, List.enumFrom,
            List.filterMap_cons, mkEntry]
      · have hnf : pyTruthy (jget rkvs ("name") Json.null) = false := by
          simpa using hn
        simp [build_run_configs, hnf, hrest, List.enumFrom,
          List.filterMap_cons, mkEntry]
    | null => simpa [build_run_configs, List.enumFrom, List.filterMap_cons, mkEntry] using hrest
    | bool b => simpa [build_run_configs, List.enumFrom, List.filterMap_cons, mkEntry] using hrest
    | int n => simpa [build_run_configs, List.enumFrom, List.filterMap_cons, mkEntry] using hrest
    | str s => simpa [build_run_configs, List.enumFrom, List.filterMap_cons, mkEntry] using hrest
    | arr xs => simpa [build_run_configs, List.enumFrom, List.filterMap_cons, mkEntry] using hrest

theorem scanDir_eq_foldl (w : World) (repo : String) :
    ∀ (fuel : Nat) (dirpath : String) (acc : List String),
      scanDir w repo fuel dirpath acc =
        (specDir w repo fuel dirpath).foldl insertNew acc := by
  intro fuel
  induction fuel with
  | zero => intro d acc; rfl
  | succ fuel ih =>
    intro d acc
    rw [scanDir, specDir]
    generalize (listdir w d) = names
    induction names generalizing acc with
    | nil => rfl
    | cons n ns ihn =>
      rw [List.foldl_cons, List.foldr_cons, List.foldl_append]
      rw [ihn]
      congr 1
      by_cases hd : isdir w (osJoin d n) = true
      · by_cases hok : (!(SKIP_DIRS.contains n) && !(strStarts n ("."))) = true
        · simp only [hd, if_true]
          rw [hok]
          simp [ih]
        · have hok2 : (!(SKIP_DIRS.contains n) && !(strStarts n ("."))) = false := by
            simpa using hok
          simp only [hd, if_true]
          rw [hok2]
          simp
      · have hd2 : isdir w (osJoin d n) = false := by simpa using hd
        simp only [hd2, Bool.false_eq_true, if_false]
        by_cases hf : (isfile w (osJoin d n) && is_env_file n) = true
        · rw [hf]
          simp [insertNew]
        · have hf2 : (isfile w (osJoin d n) && is_env_file n) = false := by
            simpa using hf
          rw [hf2]
          simp

theorem str_empty_append : ∀ (s : String), "" ++ s = s
  | String.mk _ => rfl

theorem string_ne_append_tmp (s : String) : s ≠ s ++ ".tmp" := by
  intro h
  have hl := congrArg String.length h
  have h4 : (".tmp" : String).length = 4 := rfl
  rw [String.length_append, h4] at hl
  omega

theorem pyTruthy_str_of_slash (s : String) (h : strStarts s ("/") = true) :
    pyTruthy (Json.str s) = true := by
  simp only [pyTruthy]
  cases hdata : s.data with
  | nil => rw [strStarts, hdata] at h; simp [List.isPrefixOf] at h
  | cons c cs => simp

theorem isNull_eq_true_iff (j : Json) : isNull j = true ↔ j = Json.null := by
  cases j <;> simp [isNull]

theorem jsonKey_entry_port (a b c d e : Json) :
    jsonKey (Json.obj [("name", a), ("command", b), ("port", c), ("autoStart", d),
      ("order", e)]) ("port") = some c := rfl

/-- Claim C1 (code bug): the claim says no input line ever terminates the
process and every failure inside a tool handler is caught; but a
`tools/call` of `configure_project` with the non-string `repoPath` `123`
raises an uncaught `AttributeError` at `repo_path.startswith("/")`,
killing the server: no output is produced for it and later lines (here a
`ping`) are never served. -/
theorem c1_uncaught_exception_terminates :
    (runServer w0 [Line.parsed c1BadMsg, Line.parsed pingNoId]).1 = [] ∧
    (runServer w0 [Line.parsed c1BadMsg, Line.parsed pingNoId]).2.2 =
      some PyExc.attributeError :=
  ⟨rfl, rfl⟩

/-- Claim C2 counterexample: a `ping` without an id is a notification,
yet the server writes exactly one response line for it (with `id`
`null`), so "for every message without an id no response line is
written, whatever the method" is false. -/
theorem c2_notification_gets_response :
    (runServer w0 [Line.parsed pingNoId]).1 =
      [dumpsCompact (rpcResult Json.null (Json.obj []))] ∧
    jsonKey pingNoId ("id") = none :=
  ⟨rfl, rfl⟩

/-- Claim C3: `write_config` writes the full serialised configuration
(sorted keys, indent 2 via `dumpsIndent`, trailing newline) to the
sibling `.tmp` file and only then renames it over the target: every
proper prefix of the operation trace (the rename is the fifth and last
operation) leaves the stored config file byte-for-byte unchanged, and
the complete run stores exactly the serialised text plus newline. -/
theorem c3_write_config_atomic :
    ∀ (w : World) (repo_path : String) (config : Json),
      (∀ k, k ≤ 4 →
        (applyOps w ((write_config_ops repo_path config).take k)).files.lookup
            (osJoin (osJoin repo_path CONFIG_DIR) CONFIG_FILE) =
          w.files.lookup (osJoin (osJoin repo_path CONFIG_DIR) CONFIG_FILE)) ∧
      (write_config w repo_path config).files.lookup
          (osJoin (osJoin repo_path CONFIG_DIR) CONFIG_FILE) =
        some (dumpsIndent config ++ "\n") ∧
      (write_config_ops repo_path config).getLast? =
        some (FsOp.replace (osJoin (osJoin repo_path CONFIG_DIR) CONFIG_FILE ++ ".tmp")
          (osJoin (osJoin repo_path CONFIG_DIR) CONFIG_FILE)) := by
  intro w repo_path config
  have hne : osJoin (osJoin repo_path CONFIG_DIR) CONFIG_FILE ≠
      osJoin (osJoin repo_path CONFIG_DIR) CONFIG_FILE ++ ".tmp" :=
    string_ne_append_tmp _
  refine ⟨?_, ?_, rfl⟩
  · intro k hk
    interval_cases k
    · rfl
    · rfl
    · simp [write_config_ops, applyOps, applyOp, lookup_setFile_ne _ _ _ _ hne]
    · simp [write_config_ops, applyOps, applyOp, lookup_setFile_ne _ _ _ _ hne]
    · simp [write_config_ops, applyOps, applyOp, lookup_setFile_ne _ _ _ _ hne]
  · simp only [write_config, write_config_ops, applyOps, List.foldl_cons, List.foldl_nil]
    simp only [applyOp, lookup_setFile_self, lookup_setFile_ne _ _ _ _ hne,
      Option.getD_some]
    rw [str_empty_append]

/-- Claim C3 witness: at the prefix of length 2 (directory made, tmp
file created) the stored config file of the empty world is unchanged. -/
theorem c3_write_config_atomic_witness :
    (applyOps w0 ((write_config_ops ("/r") (Json.obj [])).take 2)).files.lookup
        (osJoin (osJoin ("/r") CONFIG_DIR) CONFIG_FILE) =
      w0.files.lookup (osJoin (osJoin ("/r") CONFIG_DIR) CONFIG_FILE) :=
  (c3_write_config_atomic w0 ("/r") (Json.obj [])).1 2 (by decide)

/-- Claim C4 counterexample: a run configuration that carries the
invalid port `70000` but no name and no command is silently skipped:
the call succeeds (no `isError`) and writes the config file, so "any
run configuration with an out-of-range port makes the call error and
perform no write" is false as stated. -/
theorem c4_unnamed_bad_port_not_rejected :
    ((handle_configure_project wRepo c4Args).1.map resultIsError = Except.ok false) ∧
    ((handle_configure_project wRepo c4Args).2.files.lookup
        (osJoin (osJoin ("/r") CONFIG_DIR) CONFIG_FILE)).isSome = true ∧
    getField c4Args ("runConfigurations") (Json.arr []) =
      Json.arr [Json.obj [("port", Json.int 70000)]] :=
  ⟨rfl, rfl, rfl⟩

/-- Claim C4 (amended): if some run configuration that passes the
element filter (an object with truthy name and command) carries a
present, invalid port — `find?` picks the first such element — then
`configure_project` returns the error naming that element\x27s name and
port value, and the world (config file and ignore file included) is
returned unchanged. -/
theorem c4_invalid_port_rejected :
    ∀ (w : World) (akvs : List (String × Json)) (repo : String) (rcs : List Json) (bad : Json),
      jget akvs ("repoPath") Json.null = Json.str repo →
      strStarts repo ("/") = true →
      isdir w (osJoin repo (".git")) = true →
      jget akvs ("runConfigurations") (Json.arr []) = Json.arr rcs →
      rcs.find? rcBadPort = some bad →
      handle_configure_project w (Json.obj akvs) =
        (Except.ok (error_result (invalidPortMsg (getField bad ("port") Json.null)
          (getField bad ("name") Json.null))), w) := by
  intro w akvs repo rcs bad h1 h2 h3 h4 h5
  have hne : akvs ≠ [] := by
    intro he
    rw [he] at h1
    simp [jget] at h1
  have htr : pyTruthy (Json.obj akvs) = true := by
    cases akvs with
    | nil => exact absurd rfl hne
    | cons a l => simp [pyTruthy]
  have hrepo := pyTruthy_str_of_slash repo h2
  simp only [handle_configure_project, pyOr, htr, if_true, h1, hrepo, Bool.not_true,
    Bool.false_eq_true, if_false, h2, h3, h4, pyIterate]
  rw [build_run_configs_error_of_find 0 rcs bad h5]

/-- Claim C4 witness: the concrete invalid port 70000 on runner `x`. -/
theorem c4_invalid_port_rejected_witness :
    handle_configure_project wRepo (Json.obj [("repoPath", Json.str ("/r")),
        ("runConfigurations", Json.arr [Json.obj [("name", Json.str ("x")),
          ("command", Json.str ("y")), ("port", Json.int 70000)]])]) =
      (Except.ok (error_result (invalidPortMsg
        (getField (Json.obj [("name", Json.str ("x")), ("command", Json.str ("y")),
          ("port", Json.int 70000)]) ("port") Json.null)
        (getField (Json.obj [("name", Json.str ("x")), ("command", Json.str ("y")),
          ("port", Json.int 70000)]) ("name") Json.null))), wRepo) :=
  c4_invalid_port_rejected wRepo
    [("repoPath", Json.str ("/r")),
     ("runConfigurations", Json.arr [Json.obj [("name", Json.str ("x")),
       ("command", Json.str ("y")), ("port", Json.int 70000)]])]
    ("/r")
    [Json.obj [("name", Json.str ("x")), ("command", Json.str ("y")),
      ("port", Json.int 70000)]]
    (Json.obj [("name", Json.str ("x")), ("command", Json.str ("y")),
      ("port", Json.int 70000)])
    rfl rfl rfl rfl rfl

/-- Claim C5 counterexample: a run configuration supplied without a port
is persisted with an explicit `"port": null` member — the built entry
carries the key `port` with value `null`, and the config file written by
`configure_project` contains the text `"port": null` — so "when the
caller supplied no port, the persisted entry carries no port" is false. -/
theorem c5_port_key_persisted_as_null :
    build_run_configs 0 [Json.obj [("name", Json.str ("a")), ("command", Json.str ("b"))]] =
      Except.ok [Json.obj [("name", Json.str ("a")), ("command", Json.str ("b")),
        ("port", Json.null), ("autoStart", Json.bool false), ("order", Json.int 0)]] ∧
    ((handle_configure_project wRepo c5Args).2.files.lookup
        (osJoin (osJoin ("/r") CONFIG_DIR) CONFIG_FILE)).map
      (fun s => strContains s ("\"port\": null")) = some true :=
  ⟨rfl, rfl⟩

/-- Claim C5 (amended): every entry of `runConfigurations` built by
`configure_project` carries an explicit `port` key whose value is either
`null` (in particular whenever the caller supplied no port, since a
missing key defaults to `null`) or a value accepted by the range check
`isinstance(port, int) and 1 <= port <= 65535` (an integer in
[1, 65535], or `true`, which Python admits because `bool` subclasses
`int`). -/
theorem c5_port_field_null_or_valid :
    ∀ (i : Nat) (rcs entries : List Json),
      build_run_configs i rcs = Except.ok entries →
      ∀ e ∈ entries,
        jsonKey e ("port") = some Json.null ∨
          ∃ p, jsonKey e ("port") = some p ∧ portOk p = true := by
  intro i rcs
  induction rcs generalizing i with
  | nil =>
    intro entries h e he
    cases h
    cases he
  | cons rc rest ih =>
    intro entries h e he
    cases rc with
    | obj rkvs =>
      by_cases hn : pyTruthy (jget rkvs ("name") Json.null) = true
      · by_cases hcmd : pyTruthy (jget rkvs ("command") Json.null) = true
        · by_cases hport : (!(isNull (jget rkvs ("port") Json.null)) &&
              !(portOk (jget rkvs ("port") Json.null))) = true
          · rw [build_run_configs] at h
            simp [hn, hcmd, hport] at h
          · have hportf : (!(isNull (jget rkvs ("port") Json.null)) &&
                !(portOk (jget rkvs ("port") Json.null))) = false := by
              simpa using hport
            rw [build_run_configs] at h
            simp only [hn, hcmd, Bool.not_true, Bool.or_self, Bool.false_eq_true,
              if_false, hportf] at h
            cases hb : build_run_configs (i + 1) rest with
            | error m =>
              rw [hb] at h
              simp [Except.map] at h
            | ok r =>
              rw [hb] at h
              simp only [Except.map, Except.ok.injEq] at h
              subst h
              rcases List.mem_cons.1 he with rfl | hmem
              · rw [jsonKey_entry_port]
                rcases Bool.and_eq_false_iff.1 hportf with hx | hx
                · left
                  have : isNull (jget rkvs ("port") Json.null) = true := by
                    simpa using hx
                  rw [(isNull_eq_true_iff _).1 this]
                · right
                  exact ⟨_, rfl, by simpa using hx⟩
              · exact ih (i + 1) r hb e hmem
        · have hcf : pyTruthy (jget rkvs ("command") Json.null) = false := by
            simpa using hcmd
          rw [build_run_configs] at h
          simp only [hn, hcf, Bool.not_true, Bool.not_false, Bool.or_true,
            Bool.false_or, if_true] at h
          exact ih (i + 1) entries h e he
      · have hnf : pyTruthy (jget rkvs ("name") Json.null) = false := by
          simpa using hn
        rw [build_run_configs] at h
        simp only [hnf, Bool.not_false, Bool.true_or, if_true] at h
        exact ih (i + 1) entries h e he
    | null => exact ih (i + 1) entries h e he
    | bool b => exact ih (i + 1) entries h e he
    | int n => exact ih (i + 1) entries h e he
    | str s => exact ih (i + 1) entries h e he
    | arr xs => exact ih (i + 1) entries h e he

/-- Claim C5 witness: the entry built for a portless run configuration
has `port` key `null`. -/
theorem c5_port_field_witness :
    jsonKey (Json.obj [("name", Json.str ("a")), ("command", Json.str ("b")),
        ("port", Json.null), ("autoStart", Json.bool false), ("order", Json.int 0)])
      ("port") = some Json.null ∨
    ∃ p, jsonKey (Json.obj [("name", Json.str ("a")), ("command", Json.str ("b")),
        ("port", Json.null), ("autoStart", Json.bool false), ("order", Json.int 0)])
      ("port") = some p ∧ portOk p = true :=
  c5_port_field_null_or_valid 0
    [Json.obj [("name", Json.str ("a")), ("command", Json.str ("b"))]]
    [Json.obj [("name", Json.str ("a")), ("command", Json.str ("b")),
      ("port", Json.null), ("autoStart", Json.bool false), ("order", Json.int 0)]]
    rfl _ (List.mem_singleton.2 rfl)

/-- Claim C10: when no surviving element carries an invalid port, the
run-configuration loop succeeds and produces exactly the entries of the
valid elements, in order: a non-object element or one without truthy
name and command is silently dropped (no error, no entry) while still
advancing the enumeration index, and a valid element without `order`
receives as default order its position in the caller\x27s original list
(the index paired by `enum`), not its position among the kept
entries. -/
theorem c10_invalid_elements_skipped :
    ∀ (rcs : List Json),
      (∀ rc ∈ rcs, rcBadPort rc = false) →
      build_run_configs 0 rcs = Except.ok (rcs.enum.filterMap mkEntry) := by
  intro rcs h
  rw [build_run_configs_eq_filterMap 0 rcs h]
  rfl

/-- Claim C10 witness: a skipped non-object first element still makes
the following valid element (without `order`) default to order 1. -/
theorem c10_invalid_elements_skipped_witness :
    build_run_configs 0 [Json.int 5,
        Json.obj [("name", Json.str ("n")), ("command", Json.str ("c"))]] =
      Except.ok (([Json.int 5,
        Json.obj [("name", Json.str ("n")), ("command", Json.str ("c"))]] :
          List Json).enum.filterMap mkEntry) :=
  c10_invalid_elements_skipped
    [Json.int 5, Json.obj [("name", Json.str ("n")), ("command", Json.str ("c"))]]
    (by
      intro rc hrc
      rcases List.mem_cons.1 hrc with rfl | h2
      · rfl
      rcases List.mem_cons.1 h2 with rfl | h3
      · rfl
      · cases h3)

theorem detect_of_bun_lockb (w : World) (repo : String)
    (hpj : isfile w (osJoin repo ("package.json")) = true)
    (h1 : isfile w (osJoin repo ("bun.lockb")) = true) :
    detect_package_manager w repo = some ⟨"bun", "bun install", some ("bun.lockb")⟩ := by
  simp [detect_package_manager, PACKAGE_MANAGER_CANDIDATES, detectFrom, hpj, h1]

theorem detect_of_bun_lock (w : World) (repo : String)
    (hpj : isfile w (osJoin repo ("package.json")) = true)
    (h1 : isfile w (osJoin repo ("bun.lockb")) = false)
    (h2 : isfile w (osJoin repo ("bun.lock")) = true) :
    detect_package_manager w repo = some ⟨"bun", "bun install", some ("bun.lock")⟩ := by
  simp [detect_package_manager, PACKAGE_MANAGER_CANDIDATES, detectFrom, hpj, h1, h2]

theorem detect_of_pnpm (w : World) (repo : String)
    (hpj : isfile w (osJoin repo ("package.json")) = true)
    (h1 : isfile w (osJoin repo ("bun.lockb")) = false)
    (h2 : isfile w (osJoin repo ("bun.lock")) = false)
    (h3 : isfile w (osJoin repo ("pnpm-lock.yaml")) = true) :
    detect_package_manager w repo = some ⟨"pnpm", "pnpm install", some ("pnpm-lock.yaml")⟩ := by
  simp [detect_package_manager, PACKAGE_MANAGER_CANDIDATES, detectFrom, hpj, h1, h2, h3]

theorem detect_of_yarn (w : World) (repo : String)
    (hpj : isfile w (osJoin repo ("package.json")) = true)
    (h1 : isfile w (osJoin repo ("bun.lockb")) = false)
    (h2 : isfile w (osJoin repo ("bun.lock")) = false)
    (h3 : isfile w (osJoin repo ("pnpm-lock.yaml")) = false)
    (h4 : isfile w (osJoin repo ("yarn.lock")) = true) :
    detect_package_manager w repo = some ⟨"yarn", "yarn install", some ("yarn.lock")⟩ := by
  simp [detect_package_manager, PACKAGE_MANAGER_CANDIDATES, detectFrom, hpj, h1, h2, h3, h4]

theorem detect_of_npm (w : World) (repo : String)
    (hpj : isfile w (osJoin repo ("package.json")) = true)
    (h1 : isfile w (osJoin repo ("bun.lockb")) = false)
    (h2 : isfile w (osJoin repo ("bun.lock")) = false)
    (h3 : isfile w (osJoin repo ("pnpm-lock.yaml")) = false)
    (h4 : isfile w (osJoin repo ("yarn.lock")) = false) :
    detect_package_manager w repo = some ⟨"npm", "npm install", none⟩ := by
  simp [detect_package_manager, PACKAGE_MANAGER_CANDIDATES, detectFrom, hpj, h1, h2, h3, h4]

/-- Claim C6: `detect_package_manager` evaluates the fixed ordered
candidate table top-to-bottom and returns the first row whose manifest
exists and whose required lock file (when any) exists; consequently the
lockfile-specific JS managers (bun, pnpm, yarn) win over bare npm when a
JS lock file is present, any repository with a `package.json` resolves
to a JS-family manager regardless of other ecosystems\x27 manifests, and
with no manifest at all the result is no package manager. -/
theorem c6_detect_package_manager_spec :
    (∀ (w : World) (repo : String),
        detect_package_manager w repo =
          (PACKAGE_MANAGER_CANDIDATES.find? (candMatches w repo)).map pmOfCandidate) ∧
    (∀ (w : World) (repo : String),
        isfile w (osJoin repo ("package.json")) = true →
        (isfile w (osJoin repo ("bun.lockb")) || isfile w (osJoin repo ("bun.lock")) ||
          isfile w (osJoin repo ("pnpm-lock.yaml")) ||
          isfile w (osJoin repo ("yarn.lock"))) = true →
        ∃ pm, detect_package_manager w repo = some pm ∧ pm.name ≠ "npm" ∧
          pm.name ∈ (["bun", "pnpm", "yarn"] : List String)) ∧
    (∀ (w : World) (repo : String),
        isfile w (osJoin repo ("package.json")) = true →
        ∃ pm, detect_package_manager w repo = some pm ∧ pm.name ∈ JS_MANAGERS) ∧
    (∀ (w : World) (repo : String),
        (∀ c ∈ PACKAGE_MANAGER_CANDIDATES, isfile w (osJoin repo c.1) = false) →
        detect_package_manager w repo = none) := by
  refine ⟨?_, ?_, ?_, ?_⟩
  · intro w repo
    exact detectFrom_eq_find w repo PACKAGE_MANAGER_CANDIDATES
  · intro w repo hpj hlock
    cases h1 : isfile w (osJoin repo ("bun.lockb"))
    · cases h2 : isfile w (osJoin repo ("bun.lock"))
      · cases h3 : isfile w (osJoin repo ("pnpm-lock.yaml"))
        · cases h4 : isfile w (osJoin repo ("yarn.lock"))
          · rw [h1, h2, h3, h4] at hlock
            simp at hlock
          · exact ⟨_, detect_of_yarn w repo hpj h1 h2 h3 h4, by decide, by decide⟩
        · exact ⟨_, detect_of_pnpm w repo hpj h1 h2 h3, by decide, by decide⟩
      · exact ⟨_, detect_of_bun_lock w repo hpj h1 h2, by decide, by decide⟩
    · exact ⟨_, detect_of_bun_lockb w repo hpj h1, by decide, by decide⟩
  · intro w repo hpj
    cases h1 : isfile w (osJoin repo ("bun.lockb"))
    · cases h2 : isfile w (osJoin repo ("bun.lock"))
      · cases h3 : isfile w (osJoin repo ("pnpm-lock.yaml"))
        · cases h4 : isfile w (osJoin repo ("yarn.lock"))
          · exact ⟨_, detect_of_npm w repo hpj h1 h2 h3 h4, by decide⟩
          · exact ⟨_, detect_of_yarn w repo hpj h1 h2 h3 h4, by decide⟩
        · exact ⟨_, detect_of_pnpm w repo hpj h1 h2 h3, by decide⟩
      · exact ⟨_, detect_of_bun_lock w repo hpj h1 h2, by decide⟩
    · exact ⟨_, detect_of_bun_lockb w repo hpj h1, by decide⟩
  · intro w repo h
    simp only [PACKAGE_MANAGER_CANDIDATES, List.forall_mem_cons, List.forall_mem_ne] at h
    obtain ⟨ha, hb, hc, hd, he, hf, hg, hh, hi, hj, hk, hl, hm, -⟩ := h
    simp [detect_package_manager, PACKAGE_MANAGER_CANDIDATES, detectFrom,
      ha, hb, hc, hd, he, hf, hg, hh, hi, hj, hk, hl, hm]

/-- Claim C6 witness: a world with no manifest at all detects no
package manager. -/
theorem c6_detect_package_manager_witness :
    detect_package_manager w0 ("/r") = none :=
  c6_detect_package_manager_spec.2.2.2 w0 ("/r") (fun _ _ => rfl)

theorem except_map_ok_inv {α β : Type} (f : α → β) (x : Except PyExc α) (b : β)
    (h : x.map f = Except.ok b) : ∃ a, x = Except.ok a ∧ b = f a := by
  cases x with
  | ok a => exact ⟨a, rfl, (Except.ok.inj h).symm⟩
  | error e => simp [Except.map] at h

theorem scriptLe_total (s t : ScriptEntry) : scriptLe s t = true ∨ scriptLe t s = true := by
  simp only [scriptLe, Bool.or_eq_true, decide_eq_true_eq, Bool.and_eq_true, beq_iff_eq]
  rcases Nat.lt_trichotomy (categoryRank s.category) (categoryRank t.category) with h | h | h
  · exact Or.inl (Or.inl h)
  · rcases pyStrLe_total s.name t.name with hp | hp
    · exact Or.inl (Or.inr ⟨h, hp⟩)
    · exact Or.inr (Or.inr ⟨h.symm, hp⟩)
  · exact Or.inr (Or.inl h)

theorem scriptLe_trans (s t u : ScriptEntry) (h1 : scriptLe s t = true)
    (h2 : scriptLe t u = true) : scriptLe s u = true := by
  simp only [scriptLe, Bool.or_eq_true, decide_eq_true_eq, Bool.and_eq_true,
    beq_iff_eq] at h1 h2 ⊢
  rcases h1 with h1 | h1
  · rcases h2 with h2 | h2
    · exact Or.inl (h1.trans h2)
    · exact Or.inl (h2.1 ▸ h1)
  · rcases h2 with h2 | h2
    · exact Or.inl (h1.1 ▸ h2)
    · exact Or.inr ⟨h1.1.trans h2.1, pyStrLe_trans _ _ _ h1.2 h2.2⟩

/-- Claim C7: `categorize_script` returns the first satisfied category
of the ordered table devServer, build, test, lint, other, using
case-insensitive substring containment of the name tokens (devServer
also firing on known dev-tool invocations in the command text); in
particular `build:dev-assets` is devServer for every command, because
its name contains the substring `dev`; and every script list
`parse_scripts` returns is sorted by (category rank, script name). -/
theorem c7_categorize_first_match_and_sorted :
    (∀ (name command : String), categorize_script name command = firstCat name command) ∧
    (∀ (command : String), categorize_script ("build:dev-assets") command = "devServer") ∧
    (∀ (w : World) (repo : String) (pm : Option PkgManager) (l : List ScriptEntry),
        parse_scripts w repo pm = Except.ok l →
        l.Pairwise (fun s t => scriptLe s t = true)) := by
  refine ⟨?_, ?_, ?_⟩
  · intro name command
    by_cases h1 : (DEV_NAME_PATTERNS.any (fun p => strContains (strLower name) p) ||
        DEV_CMD_PATTERNS.any (fun p => strContains (strLower command) p)) = true
    · simp [categorize_script, firstCat, catTable, List.find?, h1]
    · have h1f : (DEV_NAME_PATTERNS.any (fun p => strContains (strLower name) p) ||
          DEV_CMD_PATTERNS.any (fun p => strContains (strLower command) p)) = false := by
        simpa using h1
      by_cases h2 : BUILD_PATTERNS.any (fun p => strContains (strLower name) p) = true
      · simp [categorize_script, firstCat, catTable, List.find?, h1f, h2]
      · have h2f : BUILD_PATTERNS.any (fun p => strContains (strLower name) p) = false := by
          simpa using h2
        by_cases h3 : TEST_PATTERNS.any (fun p => strContains (strLower name) p) = true
        · simp [categorize_script, firstCat, catTable, List.find?, h1f, h2f, h3]
        · have h3f : TEST_PATTERNS.any (fun p => strContains (strLower name) p) = false := by
            simpa using h3
          by_cases h4 : LINT_PATTERNS.any (fun p => strContains (strLower name) p) = true
          · simp [categorize_script, firstCat, catTable, List.find?, h1f, h2f, h3f, h4]
          · have h4f : LINT_PATTERNS.any (fun p => strContains (strLower name) p) = false := by
              simpa using h4
            simp [categorize_script, firstCat, catTable, List.find?, h1f, h2f, h3f, h4f]
  · intro command
    have h : DEV_NAME_PATTERNS.any
        (fun p => strContains (strLower ("build:dev-assets")) p) = true := by decide
    simp [categorize_script, h]
  · intro w repo pm l h
    have hnil : l = [] → l.Pairwise (fun s t => scriptLe s t = true) := by
      intro hb
      rw [hb]
      exact List.Pairwise.nil
    simp only [parse_scripts] at h
    repeat' split at h
    all_goals first
      | exact hnil (Except.ok.inj h).symm
      | exact absurd h (by simp)
      | (obtain ⟨base, hbase, rfl⟩ := except_map_ok_inv _ _ _ h
         exact pySort_pairwise scriptLe scriptLe_total scriptLe_trans base)

/-- Claim C7 witness: the scripts of `wScripts` parse to a list sorted
by (category rank, name): `build:dev-assets` (devServer) precedes
`lint` (lint). -/
theorem c7_categorize_witness :
    List.Pairwise (fun s t => scriptLe s t = true)
      [(⟨"build:dev-assets", "x", "npm run build:dev-assets", "devServer"⟩ : ScriptEntry),
       (⟨"lint", "eslint .", "npm run lint", "lint"⟩ : ScriptEntry)] :=
  c7_categorize_first_match_and_sorted.2.2 wScripts ("/r")
    (detect_package_manager wScripts ("/r"))
    [⟨"build:dev-assets", "x", "npm run build:dev-assets", "devServer"⟩,
     ⟨"lint", "eslint .", "npm run lint", "lint"⟩]
    rfl

/-- Claim C8: `scan_env_files` returns exactly the repo-relative paths
reachable by the depth-bounded recursive descent that never enters
skip-listed or dot-prefixed directories and keeps files whose name
starts or ends with `.env` (membership coincides with the
specification-side `specDir` listing), with no duplicates, sorted in
code-point (lexical) order; on the spec example root the result is
exactly `[".env", ".env.local", "config.env"]`. -/
theorem c8_scan_env_files_spec :
    (∀ (w : World) (repo : String),
        (scan_env_files w repo).Pairwise (fun a b => pyStrLe a b = true) ∧
        (scan_env_files w repo).Nodup ∧
        (∀ x, x ∈ scan_env_files w repo ↔ x ∈ specDir w repo (MAX_DEPTH + 1) repo)) ∧
    scan_env_files wEnv ("/r") = [".env", ".env.local", "config.env"] := by
  constructor
  · intro w repo
    have hperm := pySort_perm pyStrLe (scanDir w repo (MAX_DEPTH + 1) repo [])
    have heq := scanDir_eq_foldl w repo (MAX_DEPTH + 1) repo []
    refine ⟨pySort_pairwise pyStrLe pyStrLe_total pyStrLe_trans _, ?_, ?_⟩
    · show (pySort pyStrLe (scanDir w repo (MAX_DEPTH + 1) repo [])).Nodup
      rw [hperm.nodup_iff, heq]
      exact nodup_foldl_insertNew _ _ List.nodup_nil
    · intro x
      show x ∈ pySort pyStrLe (scanDir w repo (MAX_DEPTH + 1) repo []) ↔ _
      rw [hperm.mem_iff, heq, mem_foldl_insertNew]
      simp
  · decide

theorem gitignore_entry_count (t : List Char)
    (h : (splitNl t).countP isWtmuxLine = 0) :
    (splitNl (t ++ ('\n' :: (".wtmux").data ++ ['\n']))).countP isWtmuxLine = 1 := by
  have hassoc : t ++ ('\n' :: (".wtmux").data ++ ['\n']) =
      t ++ '\n' :: ((".wtmux").data ++ ['\n']) := by simp
  rw [hassoc, splitNl_append, List.countP_append, h]
  decide

theorem countP_splitNl_zero_of_not_has (c : String) (h : gitignoreHas c = false) :
    (splitNl c.data).countP isWtmuxLine = 0 := by
  rw [List.countP_eq_zero]
  intro a ha
  rw [gitignoreHas, List.any_eq_false] at h
  simpa using h a ha

/-- Claim C9: `ensure_gitignore` is idempotent.  If some line of the
ignore file, stripped, equals `.wtmux` or `.wtmux/`, it changes nothing
and reports no change; otherwise it reports a change and writes exactly
the old contents plus a separating newline (only when the file did not
already end in one) plus the single entry line `.wtmux\n`, leaving
exactly one entry line in the file; running the core twice, or the
filesystem-level operation twice, yields "no change" the second time
with identical contents. -/
theorem c9_ensure_gitignore_idempotent :
    (∀ (contents : String),
        (gitignoreHas contents = true → ensure_gitignore_core contents = (false, contents)) ∧
        (gitignoreHas contents = false →
          ensure_gitignore_core contents =
            (true, contents ++ (if strEnds contents ("\n") then ("") else ("\n")) ++ (".wtmux\n")) ∧
          (splitNl (ensure_gitignore_core contents).2.data).countP isWtmuxLine = 1) ∧
        ensure_gitignore_core (ensure_gitignore_core contents).2 =
          (false, (ensure_gitignore_core contents).2)) ∧
    (∀ (w : World) (repo_path : String),
        ensure_gitignore (ensure_gitignore w repo_path).2 repo_path =
          (false, (ensure_gitignore w repo_path).2)) := by
  have hcount : ∀ (c : String), gitignoreHas c = false →
      (splitNl ((c ++ (if strEnds c ("\n") then ("") else ("\n")) ++ (".wtmux\n")).data)).countP
        isWtmuxLine = 1 := by
    intro c h
    have h0 := countP_splitNl_zero_of_not_has c h
    by_cases he : strEnds c ("\n") = true
    · have he2 := he
      rw [strEnds, List.isSuffixOf_iff_suffix] at he2
      obtain ⟨t, ht⟩ := he2
      have hz : (splitNl t).countP isWtmuxLine = 0 := by
        have hdecomp : splitNl c.data = splitNl t ++ [[]] := by
          rw [← ht]
          have hone : t ++ "\n".data = t ++ '\n' :: [] := rfl
          rw [hone, splitNl_append]
          rfl
        rw [hdecomp, List.countP_append] at h0
        omega
      have hd : (c ++ (if strEnds c ("\n") then ("") else ("\n")) ++ (".wtmux\n")).data =
          t ++ ('\n' :: (".wtmux").data ++ ['\n']) := by
        rw [if_pos he]
        rw [String.data_append, String.data_append, ← ht]
        simp
      rw [hd]
      exact gitignore_entry_count t hz
    · have hef : strEnds c ("\n") = false := by simpa using he
      have hd : (c ++ (if strEnds c ("\n") then ("") else ("\n")) ++ (".wtmux\n")).data =
          c.data ++ ('\n' :: (".wtmux").data ++ ['\n']) := by
        rw [hef]
        rw [if_neg (by simp)]
        rw [String.data_append, String.data_append]
        simp
      rw [hd]
      exact gitignore_entry_count c.data h0
  have hidem : ∀ (c : String),
      ensure_gitignore_core (ensure_gitignore_core c).2 =
        (false, (ensure_gitignore_core c).2) := by
    intro c
    by_cases hh : gitignoreHas c = true
    · simp [ensure_gitignore_core, hh]
    · have hhf : gitignoreHas c = false := by simpa using hh
      have h1 := hcount c hhf
      have hc2 : (ensure_gitignore_core c).2 =
          c ++ (if strEnds c ("\n") then ("") else ("\n")) ++ (".wtmux\n") := by
        simp [ensure_gitignore_core, hhf]
      have hhas : gitignoreHas (ensure_gitignore_core c).2 = true := by
        rw [gitignoreHas, List.any_eq_true]
        rw [hc2]
        have hpos : 0 < (splitNl ((c ++ (if strEnds c ("\n") then ("") else ("\n")) ++
            (".wtmux\n")).data)).countP isWtmuxLine := by omega
        obtain ⟨a, ha, hpa⟩ := List.countP_pos_iff.1 hpos
        exact ⟨a, ha, hpa⟩
      conv_lhs => rw [ensure_gitignore_core]
      rw [hhas]
      simp
  refine ⟨fun contents => ⟨?_, ?_, hidem contents⟩, ?_⟩
  · intro h
    simp [ensure_gitignore_core, h]
  · intro h
    refine ⟨by simp [ensure_gitignore_core, h], ?_⟩
    have hc2 : (ensure_gitignore_core contents).2 =
        contents ++ (if strEnds contents ("\n") then ("") else ("\n")) ++ (".wtmux\n") := by
      simp [ensure_gitignore_core, h]
    rw [hc2]
    exact hcount contents h
  · intro w repo_path
    have h1 : ensure_gitignore w repo_path =
        match ensure_gitignore_core
            ((w.files.lookup (osJoin repo_path (".gitignore"))).getD ("")) with
        | (false, _) => (false, w)
        | (true, c2) =>
          (true, { w with files := setFile w.files (osJoin repo_path (".gitignore")) c2 }) :=
      rfl
    cases hc : ensure_gitignore_core
        ((w.files.lookup (osJoin repo_path (".gitignore"))).getD ("")) with
    | mk changed c2 =>
      cases changed
      · have hfirst : ensure_gitignore w repo_path = (false, w) := by
          rw [h1, hc]
        rw [hfirst]
        exact hfirst
      · have hfirst : ensure_gitignore w repo_path =
            (true, { w with files := setFile w.files (osJoin repo_path (".gitignore")) c2 }) := by
          rw [h1, hc]
        have hcore2 : ensure_gitignore_core c2 = (false, c2) := by
          have h2 := hidem ((w.files.lookup (osJoin repo_path (".gitignore"))).getD (""))
          rw [hc] at h2
          exact h2
        have h3 : ensure_gitignore
            { w with files := setFile w.files (osJoin repo_path (".gitignore")) c2 }
            repo_path =
            (false, { w with files := setFile w.files (osJoin repo_path (".gitignore")) c2 }) := by
          rw [ensure_gitignore]
          simp only [lookup_setFile_self, Option.getD_some]
          rw [hcore2]
        rw [hfirst]
        exact h3

/-- Claim C9 witness: on an absent ignore file (empty contents) the
first call reports a change and leaves exactly one entry line. -/
theorem c9_ensure_gitignore_witness :
    ensure_gitignore_core ("") =
      (true, ("") ++ (if strEnds ("") ("\n") then ("") else ("\n")) ++ (".wtmux\n")) ∧
    (splitNl (ensure_gitignore_core ("")).2.data).countP isWtmuxLine = 1 :=
  (c9_ensure_gitignore_idempotent.1 ("")).2.1 (by decide)

theorem jeqStr_eq (j : Json) (s : String) (h : jeqStr j s = true) : j = Json.str s := by
  cases j <;> simp [jeqStr] at h
  case str t => simp [h]

/-- Claim C2 (amended): the dispatcher writes exactly one compact
response line for a processed message when its method is `initialize`,
`tools/list`, `tools/call` or `ping` — whatever the id, including id
absent (the response then carries `id` `null`) — or when the method is
unknown and the id is present and non-null; it writes none for
`notifications/initialized` (even with an id) and for unknown methods
without an id.  Each processed message contributes its response line
immediately, so responses appear in arrival order (output of a
crash-free prefix concatenates with the remainder). -/
theorem c2_response_discipline :
    (∀ (w : World) (msg : Json) (res : Option Json) (w2 : World),
        handle_request w msg = (Except.ok res, w2) →
        res.isSome = responds (getField msg ("method") (Json.str ("")))
          (getField msg ("id") Json.null)) ∧
    (∀ (w : World) (msg : Json) (res : Option Json) (w2 : World),
        handle_request w msg = (Except.ok res, w2) →
        (runServer w [Line.parsed msg]).1 = (res.map dumpsCompact).toList) ∧
    (∀ (w : World) (ls1 ls2 : List Line),
        (runServer w ls1).2.2 = none →
        (runServer w (ls1 ++ ls2)).1 =
          (runServer w ls1).1 ++ (runServer ((runServer w ls1).2.1) ls2).1) := by
  refine ⟨?_, ?_, ?_⟩
  · intro w msg res w2 h
    cases msg with
    | obj kvs =>
      simp only [handle_request, pyGet, getField] at h ⊢
      repeat' split at h
      all_goals simp only [Prod.mk.injEq] at h
      all_goals obtain ⟨hres, hw⟩ := h
      all_goals try exact Except.noConfusion hres
      all_goals try replace hres := Except.ok.inj hres
      all_goals try subst hres
      all_goals simp_all [responds, knownMethod]
      all_goals rename_i hni
      all_goals rw [jeqStr_eq _ _ hni]
      all_goals decide
    | null => simp [handle_request, pyGet] at h
    | bool b => simp [handle_request, pyGet] at h
    | int n => simp [handle_request, pyGet] at h
    | str s => simp [handle_request, pyGet] at h
    | arr xs => simp [handle_request, pyGet] at h
  · intro w msg res w2 h
    simp [runServer, processLine, h]
  · intro w ls1 ls2
    induction ls1 generalizing w with
    | nil => intro _; simp [runServer]
    | cons l ls ih =>
      intro hc
      rcases hp : processLine w l with ⟨r, w2⟩
      cases r with
      | error e =>
        rw [runServer, hp] at hc
        simp at hc
      | ok out =>
        rcases hrs : runServer w2 ls with ⟨outs, w3, crash⟩
        have hrun : runServer w (l :: ls) = (out.toList ++ outs, w3, crash) := by
          simp only [runServer, hp, hrs]
        rw [hrun] at hc
        have hcr : crash = none := hc
        subst hcr
        have ihx := ih w2 (by rw [hrs])
        rcases hq : runServer w2 (ls ++ ls2) with ⟨o4, w4, c4⟩
        have hrun2 : runServer w (l :: (ls ++ ls2)) = (out.toList ++ o4, w4, c4) := by
          simp only [runServer, hp, hq]
        simp only [hq, hrs] at ihx
        rw [List.cons_append, hrun2, hrun]
        show out.toList ++ o4 = (out.toList ++ outs) ++ (runServer w3 ls2).1
        rw [ihx, List.append_assoc]

/-- Claim C2 witness: an `initialize` request with id 2 yields exactly
one response. -/
theorem c2_response_discipline_witness :
    (some (rpcResult (Json.int 2) initializeResult)).isSome =
      responds
        (getField (Json.obj [("method", Json.str ("initialize")), ("id", Json.int 2)])
          ("method") (Json.str ("")))
        (getField (Json.obj [("method", Json.str ("initialize")), ("id", Json.int 2)])
          ("id") Json.null) :=
  c2_response_discipline.1 w0
    (Json.obj [("method", Json.str ("initialize")), ("id", Json.int 2)])
    (some (rpcResult (Json.int 2) initializeResult)) w0 rfl
